import Mathlib

/-!
Verification development for the lease-data-foundation repository.

The Python sources are shallowly embedded: calendar dates become an explicit
Gregorian date structure with the same arithmetic as `datetime` plus
`dateutil.relativedelta`, strings become `List Char` / `String` values, and
every fallible operation returns an `Option` (or `Except` where the embedding
tracks which Python exceptions can escape).  Definitions follow the structure
of the corresponding Python functions; each one names its source.
-/

namespace LeaseData

/-! ## Gregorian calendar arithmetic (embedding of `datetime` / `relativedelta`) -/

/-- A calendar date, as carried by a Python `datetime` at midnight.  Fields are
integers; validity (`PyDate.valid`) mirrors the constraints the `datetime`
constructor enforces. -/
structure PyDate where
  year : Int
  month : Int
  day : Int
  deriving DecidableEq, Repr

/-- Gregorian leap-year rule, as used by `calendar`/`datetime`. -/
def isLeap (y : Int) : Bool :=
  (y % 4 == 0 && y % 100 != 0) || y % 400 == 0

/-- Number of days in a month (`calendar.monthrange(y, m)[1]`). -/
def daysInMonth (y m : Int) : Int :=
  if m == 2 then (if isLeap y then 29 else 28)
  else if m == 4 || m == 6 || m == 9 || m == 11 then 30
  else 31

/-- The constraints enforced by the Python `datetime` constructor
(`MINYEAR = 1`, `MAXYEAR = 9999`). -/
def PyDate.valid (d : PyDate) : Bool :=
  1 ≤ d.year && d.year ≤ 9999 && 1 ≤ d.month && d.month ≤ 12 &&
  1 ≤ d.day && d.day ≤ daysInMonth d.year d.month

/-- Days since the epoch 0000-03-01 (a rata-die style encoding; the standard
"days from civil" computation).  Monotone in calendar order, so date
comparison and day differences are computed through it. -/
def toRD (d : PyDate) : Int :=
  let y : Int := if d.month ≤ 2 then d.year - 1 else d.year
  let era : Int := Int.fdiv (if 0 ≤ y then y else y - 399) 400
  let yoe : Int := y - era * 400
  let mp : Int := Int.emod (d.month + 9) 12
  let doy : Int := Int.fdiv (153 * mp + 2) 5 + d.day - 1
  let doe : Int := yoe * 365 + Int.fdiv yoe 4 - Int.fdiv yoe 100 + doy
  era * 146097 + doe

/-- Inverse of `toRD` (the standard "civil from days" computation). -/
def fromRD (z : Int) : PyDate :=
  let era : Int := Int.fdiv (if 0 ≤ z then z else z - 146096) 146097
  let doe : Int := z - era * 146097
  let yoe : Int := Int.fdiv (doe - Int.fdiv doe 1460 + Int.fdiv doe 36524 - Int.fdiv doe 146096) 365
  let y : Int := yoe + era * 400
  let doy : Int := doe - (365 * yoe + Int.fdiv yoe 4 - Int.fdiv yoe 100)
  let mp : Int := Int.fdiv (5 * doy + 2) 153
  let d : Int := doy - Int.fdiv (153 * mp + 2) 5 + 1
  let m : Int := if mp < 10 then mp + 3 else mp - 9
  ⟨if m ≤ 2 then y + 1 else y, m, d⟩

/-- Day difference between two dates, i.e. `(d1 - d2).days` on `datetime`
values at midnight. -/
def diffDays (d1 d2 : PyDate) : Int := toRD d1 - toRD d2

/-- `d1 < d2` on `datetime` values. -/
def dltb (d1 d2 : PyDate) : Bool := toRD d1 < toRD d2

/-- `d1 <= d2` on `datetime` values. -/
def dleb (d1 d2 : PyDate) : Bool := toRD d1 ≤ toRD d2

/-- `datetime + timedelta(days = k)` (also used with negative `k` for
subtraction). -/
def addDays (d : PyDate) (k : Int) : PyDate := fromRD (toRD d + k)

/-- Embedding of `dateutil.relativedelta.relativedelta(years=ys, months=ms)`
added to a date, for `ms` already normalised into `[-11, 11]` (which is what
`relativedelta._set_months` guarantees): shift year and month, then clamp the
day to the target month's length. -/
def addRel (d : PyDate) (ys ms : Int) : PyDate :=
  let mm : Int := d.month + ms
  let y : Int := d.year + ys + (if mm > 12 then 1 else if mm < 1 then -1 else 0)
  let m : Int := if mm > 12 then mm - 12 else if mm < 1 then mm + 12 else mm
  ⟨y, m, min d.day (daysInMonth y m)⟩

/-- `date + relativedelta(years = n)`. -/
def addYears (d : PyDate) (n : Int) : PyDate := addRel d n 0

/-- Normalisation performed by `relativedelta._set_months`: a raw month count
is split into years and a month remainder of the same sign in `[-11, 11]`. -/
def setMonths (total : Int) : Int × Int :=
  if total.natAbs > 11 then
    if 0 ≤ total then (Int.fdiv total 12, Int.emod total 12)
    else (-(Int.fdiv (-total) 12), -(Int.emod (-total) 12))
  else (0, total)

/-- `date + relativedelta(months = total)` for an arbitrary month count. -/
def addTotalMonths (d : PyDate) (total : Int) : PyDate :=
  let ym := setMonths total
  addRel d ym.1 ym.2

/-- Embedding of the month-count fixpoint loop inside
`relativedelta.__init__(dt1, dt2)`: starting from the raw month difference,
decrement while `dt2 + months` overshoots `dt1` (increment in the symmetric
case).  The source loop terminates after at most one step; fuel makes the
recursion structural. -/
def relMonthsLoop (fuel : Nat) (dt1 dt2 : PyDate) (months : Int) (increasing : Bool) : Int :=
  match fuel with
  | 0 => months
  | fuel + 1 =>
    if increasing then
      if dltb (addTotalMonths dt2 months) dt1 then relMonthsLoop fuel dt1 dt2 (months + 1) increasing
      else months
    else
      if dltb dt1 (addTotalMonths dt2 months) then relMonthsLoop fuel dt1 dt2 (months - 1) increasing
      else months

/-- Embedding of `relativedelta(dt1, dt2)` restricted to the fields the
sources read: the normalised `(years, months, days)` triple. -/
def relDelta (dt1 dt2 : PyDate) : Int × Int × Int :=
  let months0 : Int := (dt1.year - dt2.year) * 12 + (dt1.month - dt2.month)
  let months : Int :=
    if dltb dt1 dt2 then relMonthsLoop 4 dt1 dt2 months0 true
    else relMonthsLoop 4 dt1 dt2 months0 false
  let ym := setMonths months
  (ym.1, ym.2, diffDays dt1 (addTotalMonths dt2 months))

/-- `relativedelta(dt1, dt2).years`. -/
def relYears (dt1 dt2 : PyDate) : Int := (relDelta dt1 dt2).1

/-! ## Python string primitives -/

/-- The whitespace characters relevant to `str.strip` / `\s` on the inputs the
pipeline sees (ASCII whitespace plus the non-breaking space U+00A0). -/
def isPyWs (c : Char) : Bool :=
  c == ' ' || c == '\t' || c == '\n' || c == '\r' ||
  c == '\x0b' || c == '\x0c' || c == ' '

/-- ASCII lower-casing of one character (`str.lower` on the alphabet the
sources manipulate). -/
def lowChar (c : Char) : Char :=
  if 'A' ≤ c && c ≤ 'Z' then Char.ofNat (c.toNat + 32) else c

/-- ASCII upper-casing of one character (`str.upper` / SQL `UPPER`). -/
def upChar (c : Char) : Char :=
  if 'a' ≤ c && c ≤ 'z' then Char.ofNat (c.toNat - 32) else c

/-- `str.lower` over a character list. -/
def lowerL (s : List Char) : List Char := s.map lowChar

/-- `str.upper` over a character list. -/
def upperL (s : List Char) : List Char := s.map upChar

/-- `str.strip` over a character list. -/
def stripL (s : List Char) : List Char :=
  (s.dropWhile isPyWs).reverse.dropWhile isPyWs |>.reverse

/-- `str.strip` on `String`. -/
def pyStrip (s : String) : String := ⟨stripL s.data⟩

/-- `str.lower` on `String`. -/
def pyLower (s : String) : String := ⟨lowerL s.data⟩

/-- `str.upper` on `String`. -/
def pyUpper (s : String) : String := ⟨upperL s.data⟩

def isDigitC (c : Char) : Bool := '0' ≤ c && c ≤ '9'

def isAlphaC (c : Char) : Bool := ('a' ≤ c && c ≤ 'z') || ('A' ≤ c && c ≤ 'Z')

/-- Regex word character (`\w` without the re.UNICODE extras the inputs never
use): letters, digits, underscore. -/
def isWordC (c : Char) : Bool := isAlphaC c || isDigitC c || c == '_'

/-- Numeric value of a digit list (the digits are already validated). -/
def digitsToNat (s : List Char) : Nat :=
  s.foldl (fun acc c => acc * 10 + (c.toNat - '0'.toNat)) 0

/-- Python `int(s)` on the strings the embedding feeds it: optional sign after
stripping, then a non-empty digit run.  Returns `none` where `int` raises
`ValueError`. -/
def pyIntOfString (s : List Char) : Option Int :=
  let t := stripL s
  match t with
  | [] => none
  | c :: rest =>
    if c == '-' then
      if rest ≠ [] && rest.all isDigitC then some (-(digitsToNat rest : Int)) else none
    else if c == '+' then
      if rest ≠ [] && rest.all isDigitC then some (digitsToNat rest : Int) else none
    else if t.all isDigitC then some (digitsToNat t : Int) else none

end LeaseData

/-! ## A small backtracking regex engine

The cascade in `regex_extractors.py` is a list of `re` patterns compiled with
`re.IGNORECASE` and run with `.search`.  The engine below reproduces the
relevant fragment of Python `re` semantics: ordered alternation, greedy
bounded/unbounded repetition, capture groups, word boundaries and the
start/end anchors.  Patterns are transcribed as `Rx` values next to each
extractor; matching is done over lower-cased input, which is equivalent to
`re.IGNORECASE` for the ASCII patterns involved. -/

namespace LeaseData

/-- Regex abstract syntax (the fragment the sources use). -/
inductive Rx where
  | eps
  | cls (p : Char → Bool)
  | seq (a b : Rx)
  | alt (a b : Rx)
  | rep (a : Rx) (lo : Nat) (hi : Option Nat)
  | grp (i : Nat) (a : Rx)
  | wb
  | eos

/-- Captured groups: group index paired with the captured characters
(innermost capture last set wins, as in Python). -/
abbrev Groups := List (Nat × List Char)

/-- Backtracking matcher in continuation-passing style.  `prev` is the
character before the current position (for `\b`), `g` the captures so far.
`fuel` bounds the recursion; it is chosen large enough that all concrete runs
in this file finish (a run that exhausted fuel would produce `none` and make
the concrete evaluations below fail, so fuel adequacy is checked by the
theorems themselves). -/
def mrun (fuel : Nat) (r : Rx) (prev : Option Char) (s : List Char) (g : Groups)
    (k : Option Char → List Char → Groups → Option Groups) : Option Groups :=
  match fuel with
  | 0 => none
  | fuel + 1 =>
    match r with
    | .eps => k prev s g
    | .cls p =>
      match s with
      | [] => none
      | c :: rest => if p c then k (some c) rest g else none
    | .seq a b => mrun fuel a prev s g (fun p' s' g' => mrun fuel b p' s' g' k)
    | .alt a b =>
      match mrun fuel a prev s g k with
      | some res => some res
      | none => mrun fuel b prev s g k
    | .wb =>
      let lw := match prev with | none => false | some c => isWordC c
      let rw := match s with | [] => false | c :: _ => isWordC c
      if lw ≠ rw then k prev s g else none
    | .eos => match s with | [] => k prev s g | _ => none
    | .grp i a =>
      mrun fuel a prev s g
        (fun p' s' g' => k p' s' ((i, s.take (s.length - s'.length)) :: g'))
    | .rep a lo hi =>
      if lo > 0 then
        mrun fuel a prev s g
          (fun p' s' g' => mrun fuel (.rep a (lo - 1) (hi.map (· - 1))) p' s' g' k)
      else
        match hi with
        | some 0 => k prev s g
        | _ =>
          match mrun fuel a prev s g (fun p' s' g' =>
              if s'.length < s.length then
                mrun fuel (.rep a 0 (hi.map (· - 1))) p' s' g' k
              else k p' s' g') with
          | some res => some res
          | none => k prev s g

/-- Fuel used for all concrete matches in this file. -/
def rxFuel : Nat := 1000000

/-- `re.search` (or `re.match` when `anchored`): try the pattern at each
successive start position and return the first match's groups. -/
def rsearchAux (r : Rx) (anchored : Bool) : Option Char → List Char → Option Groups
  | prev, s =>
    match mrun rxFuel r prev s [] (fun _ _ g => some g) with
    | some g => some g
    | none =>
      if anchored then none
      else match s with
        | [] => none
        | c :: rest => rsearchAux r anchored (some c) rest

/-- Run a pattern against a string (already lower-cased by the caller). -/
def rsearch (r : Rx) (anchored : Bool) (s : List Char) : Option Groups :=
  rsearchAux r anchored none s

/-- Value of a capture group (`match.group i`); `none` when the group did not
participate in the match. -/
def grpGet (g : Groups) (i : Nat) : Option (List Char) := g.lookup i

/-- Literal character (patterns are written lower-case and matched against
lower-cased input, mirroring `re.IGNORECASE`). -/
def rchr (c : Char) : Rx := .cls (fun x => x == c)

/-- Literal string. -/
def rstr (w : String) : Rx := w.data.foldr (fun c acc => .seq (rchr c) acc) .eps

/-- Ordered alternation over a list (first alternative preferred, as in `re`). -/
def raltL : List Rx → Rx
  | [] => .cls (fun _ => false)
  | [r] => r
  | r :: rest => .alt r (raltL rest)

/-- Sequence of a list of patterns. -/
def rseqL : List Rx → Rx
  | [] => .eps
  | [r] => r
  | r :: rest => .seq r (rseqL rest)

def rdigit : Rx := .cls isDigitC

/-- `\d{lo,hi}`. -/
def rdigits (lo hi : Nat) : Rx := .rep rdigit lo (some hi)

/-- `\d+`. -/
def rdigitsPlus : Rx := .rep rdigit 1 none

/-- `[A-Za-z]+`. -/
def ralpha1 : Rx := .rep (.cls isAlphaC) 1 none

/-- `\s+`. -/
def rws1 : Rx := .rep (.cls isPyWs) 1 none

/-- `\s*`. -/
def rwsStar : Rx := .rep (.cls isPyWs) 0 none

/-- `r?`. -/
def ropt (r : Rx) : Rx := .rep r 0 (some 1)

end LeaseData

/-! ## Date and number primitives (`regex_extractors.py` §4.A) -/

namespace LeaseData

/-- Month names accepted by `strptime` `%B` (lower-cased). -/
def monthFull : List (List Char × Int) :=
  [("january".data, 1), ("february".data, 2), ("march".data, 3), ("april".data, 4),
   ("may".data, 5), ("june".data, 6), ("july".data, 7), ("august".data, 8),
   ("september".data, 9), ("october".data, 10), ("november".data, 11), ("december".data, 12)]

/-- Month names accepted by `strptime` `%b` (lower-cased). -/
def monthAbbr : List (List Char × Int) :=
  [("jan".data, 1), ("feb".data, 2), ("mar".data, 3), ("apr".data, 4),
   ("may".data, 5), ("jun".data, 6), ("jul".data, 7), ("aug".data, 8),
   ("sep".data, 9), ("oct".data, 10), ("nov".data, 11), ("dec".data, 12)]

/-- A numeric field of at most `w` digits (`strptime` `%d`/`%m`/`%Y`):
non-empty, all digits, within the field width. -/
def fieldNat (s : List Char) (w : Nat) : Option Int :=
  if s ≠ [] && s.all isDigitC && s.length ≤ w then some (digitsToNat s : Int) else none

/-- Embedding of `parse_date(day, month, year)` from `regex_extractors.py`:
try `%d %B %Y`, then `%d %b %Y`, then the numeric `%d/%m/%Y`; every
`ValueError` is caught, so failure is `none`.  Inputs are lower-cased capture
strings. -/
def parse_date (day month year : List Char) : Option PyDate :=
  match fieldNat day 2, fieldNat year 4 with
  | some d, some y =>
    let mk : Int → Option PyDate := fun m =>
      if 1 ≤ y && y ≤ 9999 && 1 ≤ d && d ≤ daysInMonth y m then some ⟨y, m, d⟩ else none
    (match monthFull.lookup month with
     | some m => mk m
     | none =>
       match monthAbbr.lookup month with
       | some m => mk m
       | none =>
         match fieldNat month 2 with
         | some m => if 1 ≤ m && m ≤ 12 then mk m else none
         | none => none)
  | _, _ => none

/-- The word-to-number table of `parse_word_number`. -/
def wordToNum : List (List Char × Int) :=
  [("one".data, 1), ("two".data, 2), ("three".data, 3), ("four".data, 4), ("five".data, 5),
   ("six".data, 6), ("seven".data, 7), ("eight".data, 8), ("nine".data, 9), ("ten".data, 10),
   ("eleven".data, 11), ("twelve".data, 12), ("thirteen".data, 13), ("fourteen".data, 14),
   ("fifteen".data, 15), ("sixteen".data, 16), ("seventeen".data, 17), ("eighteen".data, 18),
   ("nineteen".data, 19), ("twenty".data, 20), ("thirty".data, 30), ("forty".data, 40),
   ("fifty".data, 50), ("sixty".data, 60), ("seventy".data, 70), ("eighty".data, 80),
   ("ninety".data, 90), ("hundred".data, 100)]

/-- Embedding of `parse_word_number(word)`: strip all non-digits and read the
remaining digit run if any (`re.sub(r'[^\d]', '', word)` then `int`),
otherwise look the lowered, stripped word up in the word table. -/
def parse_word_number (word : List Char) : Option Int :=
  let digits := word.filter isDigitC
  if digits ≠ [] then some (digitsToNat digits : Int)
  else wordToNum.lookup (stripL (lowerL word))

/-- Pattern `^(\d+)\s+and\s+(?:a\s+)?(half|quarter)$` of
`parse_fractional_years`. -/
def rxAndFraction : Rx :=
  rseqL [.grp 1 rdigitsPlus, rws1, rstr "and", rws1, ropt (.seq (rstr "a") rws1),
         .grp 2 (.alt (rstr "half") (rstr "quarter")), .eos]

/-- Pattern `^(\d+)\s+(\d+)/(\d+)$` of `parse_fractional_years`. -/
def rxSlashFraction : Rx :=
  rseqL [.grp 1 rdigitsPlus, rws1, .grp 2 rdigitsPlus, rchr '/', .grp 3 rdigitsPlus, .eos]

/-- Embedding of `parse_fractional_years(years_str)`: "N and (a) half/quarter",
then "N P/Q", then a plain digit or word number.  Numbers are modelled as
rationals (the Python function returns floats; all values produced here are
exactly representable). -/
def parse_fractional_years (s : List Char) : Option ℚ :=
  if s = [] then none
  else
    let t := lowerL (stripL s)
    match rsearch rxAndFraction true t with
    | some g =>
      match grpGet g 1, grpGet g 2 with
      | some base, some frac =>
        if frac = "half".data then some ((digitsToNat base : ℚ) + 1/2)
        else some ((digitsToNat base : ℚ) + 1/4)
      | _, _ => none
    | none =>
      match rsearch rxSlashFraction true t with
      | some g =>
        match grpGet g 1, grpGet g 2, grpGet g 3 with
        | some base, some num, some den =>
          if digitsToNat den ≠ 0 then
            some ((digitsToNat base : ℚ) + (digitsToNat num : ℚ) / (digitsToNat den : ℚ))
          else (parse_word_number t).map (fun n => (n : ℚ))
        | _, _, _ => (parse_word_number t).map (fun n => (n : ℚ))
      | none => (parse_word_number t).map (fun n => (n : ℚ))

/-- The quarter-day table of `resolve_special_day`. -/
def specialDays : List (List Char × (Int × Int)) :=
  [("christmas day".data, (12, 25)), ("christmas".data, (12, 25)),
   ("midsummer day".data, (6, 24)), ("midsummer".data, (6, 24)),
   ("lady day".data, (3, 25)), ("michaelmas".data, (9, 29)),
   ("michaelmas day".data, (9, 29))]

/-- Embedding of `resolve_special_day(day_name, year)` with the escaping
exception made explicit: `int(year)` is wrapped in `try/except ValueError`
(failure yields `none`), but the `datetime(year_int, month, day)` constructor
call is not wrapped, so a recognised day name combined with a year outside
`datetime`'s `[1, 9999]` range raises `ValueError` out of the function
(`Except.error`). -/
def resolve_special_day_exc (dayName year : List Char) : Except Unit (Option PyDate) :=
  if dayName = [] || year = [] then .ok none
  else
    let dn := lowerL (stripL dayName)
    match pyIntOfString year with
    | none => .ok none
    | some y =>
      match specialDays.lookup dn with
      | some md =>
        if 1 ≤ y && y ≤ 9999 then .ok (some ⟨y, md.1, md.2⟩) else .error ()
      | none => .ok none

/-- `resolve_special_day` as consumed by the cascade: the total projection of
`resolve_special_day_exc` (the cascade only ever passes four-digit years, for
which the two agree except at year `0000`, where Python propagates the
exception). -/
def resolve_special_day (dayName year : List Char) : Option PyDate :=
  match resolve_special_day_exc dayName year with
  | .ok v => v
  | .error _ => none

/-- Modelled from the spec: `parse_dol_date` is imported by
`tests/test_regex_extractors.py` but absent from the source tree; per spec
§4.A (`parse_dol(s)`) it accepts day-month-year with the separators `-`, `/`
and `.`, tried in that order by `strptime`, on the stripped input, and never
throws. -/
def parse_dol_date (dol : List Char) : Option PyDate :=
  if dol = [] then none
  else
    let t := stripL dol
    let trySep : Char → Option PyDate := fun sep =>
      match t.splitOn sep with
      | [d, m, y] =>
        match fieldNat d 2, fieldNat m 2, fieldNat y 4 with
        | some dv, some mv, some yv =>
          if 1 ≤ mv && mv ≤ 12 && 1 ≤ yv && yv ≤ 9999 && 1 ≤ dv &&
             dv ≤ daysInMonth yv mv then some ⟨yv, mv, dv⟩ else none
        | _, _, _ => none
      | _ => none
    match trySep '-' with
    | some d => some d
    | none =>
      match trySep '/' with
      | some d => some d
      | none => trySep '.'

/-- Python `int(x)` truncation toward zero on a rational (`num/den` in
truncated division; the denominator of a normalised `Rat` is positive). -/
def pyTruncQ (q : ℚ) : Int := Int.tdiv q.num (q.den : Int)

/-- Mathematical floor of a rational through its normalised representation. -/
def floorQ (q : ℚ) : Int := Int.fdiv q.num (q.den : Int)

/-- Python `round(x)` (banker's rounding, half to even) on a rational. -/
def pyRound (q : ℚ) : Int :=
  let f := floorQ q
  let r := q - (f : ℚ)
  if r < 1/2 then f
  else if r > 1/2 then f + 1
  else if f % 2 = 0 then f else f + 1

end LeaseData

/-! ## Term normaliser (`normalise_term_str` in `regex_extractors.py`) -/

namespace LeaseData

/-- One pass of `re.sub(r'[\s ]+', ' ', s)`: each maximal whitespace run
becomes a single space. -/
def collapseWsAux : List Char → Bool → List Char
  | [], _ => []
  | c :: r, inRun =>
    if isPyWs c then
      (if inRun then collapseWsAux r true else ' ' :: collapseWsAux r true)
    else c :: collapseWsAux r false

/-- `re.sub(r'[\s ]+', ' ', term_str.strip())`. -/
def collapseWs (s : List Char) : List Char := collapseWsAux (stripL s) false

/-- Case-insensitive prefix match of a (lower-case) word, returning the
remaining input and the last original character matched. -/
def matchWordCIAux (w s : List Char) (last : Option Char) : Option (List Char × Option Char) :=
  match w, s with
  | [], rest => some (rest, last)
  | _ :: _, [] => none
  | c :: wr, x :: xr => if lowChar x == c then matchWordCIAux wr xr (some x) else none

/-- `re.sub(r'\bWORD\b', repl, s, flags=re.IGNORECASE)` for an alphabetic
word: a left-to-right scan replacing non-overlapping whole-word occurrences.
`prev` is the character preceding the current position in the original
string (for the `\b` assertions). -/
def subWordAux (w repl : List Char) : Nat → Option Char → List Char → List Char
  | 0, _, s => s
  | fuel + 1, prev, s =>
    match s with
    | [] => []
    | c :: rest =>
      let bOk := match prev with | none => true | some p => !(isWordC p)
      if bOk then
        match matchWordCIAux w s none with
        | some (rem, last) =>
          let aOk := match rem with | [] => true | x :: _ => !(isWordC x)
          if aOk then repl ++ subWordAux w repl fuel last rem
          else c :: subWordAux w repl fuel (some c) rest
        | none => c :: subWordAux w repl fuel (some c) rest
      else c :: subWordAux w repl fuel (some c) rest

/-- Whole-word case-insensitive substitution. -/
def subWord (w repl : String) (s : List Char) : List Char :=
  subWordAux w.data repl.data (s.length + 1) none s

/-- The two-letter ordinal suffixes `st|nd|rd|th`, case-insensitively. -/
def isOrdSuffix (a b : Char) : Bool :=
  (lowChar a == 's' && lowChar b == 't') || (lowChar a == 'n' && lowChar b == 'd') ||
  (lowChar a == 'r' && lowChar b == 'd') || (lowChar a == 't' && lowChar b == 'h')

/-- `re.sub(r'\b(\d{1,2})(?:st|nd|rd|th)\b', r'\1', s, flags=re.IGNORECASE)`:
greedy two-digit attempt first, then one digit, with word boundaries on both
sides. -/
def subOrdAux : Nat → Option Char → List Char → List Char
  | 0, _, s => s
  | fuel + 1, prev, s =>
    match s with
    | [] => []
    | c :: rest =>
      let bOk := match prev with | none => true | some p => !(isWordC p)
      if bOk && isDigitC c then
        match rest with
        | d2 :: a :: b :: rem =>
          if isDigitC d2 && isOrdSuffix a b &&
             (match rem with | [] => true | x :: _ => !(isWordC x)) then
            c :: d2 :: subOrdAux fuel (some b) rem
          else if isOrdSuffix d2 a && !(isWordC b) then
            c :: subOrdAux fuel (some a) (b :: rem)
          else c :: subOrdAux fuel (some c) rest
        | [d2, a] =>
          if isDigitC d2 then c :: subOrdAux fuel (some c) rest
          else if isOrdSuffix d2 a then c :: subOrdAux fuel (some a) []
          else c :: subOrdAux fuel (some c) rest
        | _ => c :: subOrdAux fuel (some c) rest
      else c :: subOrdAux fuel (some c) rest

/-- The ordinal-suffix substitution pass. -/
def subOrdinals (s : List Char) : List Char := subOrdAux (s.length + 1) none s

/-- The characters deleted by `normalise_term_str` (acute accent, tilde,
diaeresis, comma). -/
def isStrippedSpecial (c : Char) : Bool :=
  c == '´' || c == '~' || c == '¨' || c == ','

/-- Embedding of `normalise_term_str(term_str)`: collapse whitespace on the
stripped string, delete the special characters, strip ordinal suffixes from
one/two-digit numbers, then fix the fixed list of spelling errors (in source
order). -/
def normalise_term_str (s : List Char) : List Char :=
  let s1 := collapseWs s
  let s2 := s1.filter (fun c => !(isStrippedSpecial c))
  let s3 := subOrdinals s2
  let s4 := subWord "les" "less" s3
  let s5 := subWord "rom" "from" s4
  let s6 := subWord "frm" "from" s5
  let s7 := subWord "januaryu" "January" s6
  let s8 := subWord "jnuary" "January" s7
  let s9 := subWord "feburary" "February" s8
  let s10 := subWord "febuary" "February" s9
  let s11 := subWord "septmber" "September" s10
  let s12 := subWord "novmber" "November" s11
  subWord "decmber" "December" s12

/-- `normalise_term_str` on `String`. -/
def normaliseStr (s : String) : String := ⟨normalise_term_str s.data⟩

end LeaseData

/-! ## The pattern cascade (`parse_lease_term` in `regex_extractors.py`)

Each `pattern<n>` below is the transcription of the identically numbered
`re.compile` literal in the source; each `px<n>` is the extraction block that
follows it.  All patterns are matched against the lower-cased normalised term
string (the source compiles every pattern with `re.IGNORECASE`). -/

namespace LeaseData

/-- The result dictionary of `parse_lease_term` (keys `start_date`,
`expiry_date`, `tenure_years`, `source`).  Tenures are rationals because the
fractional-year patterns produce floats. -/
structure LeaseTerm where
  start_date : PyDate
  expiry_date : PyDate
  tenure_years : ℚ
  source : String
  deriving DecidableEq, Repr

/-- Date from three capture groups, `parse_date(g i, g j, g k)`. -/
def gDate (g : Groups) (i j k : Nat) : Option PyDate :=
  match grpGet g i, grpGet g j, grpGet g k with
  | some a, some b, some c => parse_date a b c
  | _, _, _ => none

/-- Number from a capture group, `parse_word_number(g i)`. -/
def gNum (g : Groups) (i : Nat) : Option Int := (grpGet g i).bind parse_word_number

/-- `[.\s]+`. -/
def sepDW : Rx := .rep (.cls (fun c => c == '.' || isPyWs c)) 1 none

/-- `[./\s]+` (also written `[.\s/]+` in the source). -/
def sepDSW : Rx := .rep (.cls (fun c => c == '.' || c == '/' || isPyWs c)) 1 none

/-- `[./]`. -/
def sepDS1 : Rx := .cls (fun c => c == '.' || c == '/')

/-- `(?:and\s+including\s+)?`. -/
def andIncl : Rx := ropt (rseqL [rstr "and", rws1, rstr "including", rws1])

/-- `(?:on\s+)?`. -/
def onOpt : Rx := ropt (rseqL [rstr "on", rws1])

/-- `(?:the\s+)?`. -/
def theOpt : Rx := ropt (rseqL [rstr "the", rws1])

/-- `years?`. -/
def yearsTok : Rx := rseqL [rstr "year", ropt (rchr 's')]

/-- `days?`. -/
def daysTok : Rx := rseqL [rstr "day", ropt (rchr 's')]

/-- `months?`. -/
def monthsTok : Rx := rseqL [rstr "month", ropt (rchr 's')]

/-- `(?:a term of\s+)?` (literal inner spaces, as in the source). -/
def aTermOf : Rx := ropt (rseqL [rstr "a term of", rws1])

/-- `(\d{1,4}|one|two|three|four|five|six|seven|eight|nine|ten)`. -/
def numOrWordTen : Rx :=
  raltL [rdigits 1 4, rstr "one", rstr "two", rstr "three", rstr "four", rstr "five",
         rstr "six", rstr "seven", rstr "eight", rstr "nine", rstr "ten"]

/-- `(\d+|one|two|three|four|five|six|seven|eight|nine|ten)`. -/
def dPlusOrWordTen : Rx :=
  raltL [rdigitsPlus, rstr "one", rstr "two", rstr "three", rstr "four", rstr "five",
         rstr "six", rstr "seven", rstr "eight", rstr "nine", rstr "ten"]

/-- `(\d+|one|...|twelve)`. -/
def dPlusOrWordTwelve : Rx :=
  raltL [rdigitsPlus, rstr "one", rstr "two", rstr "three", rstr "four", rstr "five",
         rstr "six", rstr "seven", rstr "eight", rstr "nine", rstr "ten",
         rstr "eleven", rstr "twelve"]

/-- `(\d+|one|...|fourteen)`. -/
def dPlusOrWordFourteen : Rx :=
  raltL [rdigitsPlus, rstr "one", rstr "two", rstr "three", rstr "four", rstr "five",
         rstr "six", rstr "seven", rstr "eight", rstr "nine", rstr "ten",
         rstr "eleven", rstr "twelve", rstr "thirteen", rstr "fourteen"]

/-- `(\d+|one|...|twenty)`. -/
def dPlusOrWordTwenty : Rx :=
  raltL [rdigitsPlus, rstr "one", rstr "two", rstr "three", rstr "four", rstr "five",
         rstr "six", rstr "seven", rstr "eight", rstr "nine", rstr "ten",
         rstr "eleven", rstr "twelve", rstr "thirteen", rstr "fourteen", rstr "fifteen",
         rstr "sixteen", rstr "seventeen", rstr "eighteen", rstr "nineteen", rstr "twenty"]

/-- The word-number alternation of patterns 23 and 28. -/
def wordNumsAll : Rx :=
  raltL [rstr "one", rstr "two", rstr "three", rstr "four", rstr "five", rstr "six",
         rstr "seven", rstr "eight", rstr "nine", rstr "ten", rstr "eleven", rstr "twelve",
         rstr "thirteen", rstr "fourteen", rstr "fifteen", rstr "sixteen", rstr "seventeen",
         rstr "eighteen", rstr "nineteen", rstr "twenty", rstr "thirty", rstr "forty",
         rstr "fifty", rstr "sixty", rstr "seventy", rstr "eighty", rstr "ninety",
         rstr "hundred"]

/-- `(Christmas\s+Day|Midsummer\s+Day|Midsummer|Christmas|Lady\s+Day|Michaelmas(?:\s+Day)?)`. -/
def specialAlt : Rx :=
  raltL [rseqL [rstr "christmas", rws1, rstr "day"],
         rseqL [rstr "midsummer", rws1, rstr "day"],
         rstr "midsummer", rstr "christmas",
         rseqL [rstr "lady", rws1, rstr "day"],
         rseqL [rstr "michaelmas", ropt (rseqL [rws1, rstr "day"])]]

/-- `(\d{1,2}) SEP ([A-Za-z]+|\d{1,2}) SEP (\d{4})` with groups `i`, `i+1`,
`i+2`. -/
def dateSepG (i : Nat) (sep : Rx) : Rx :=
  rseqL [.grp i (rdigits 1 2), sep, .grp (i + 1) (.alt ralpha1 (rdigits 1 2)), sep,
         .grp (i + 2) (rdigits 4 4)]

/-- `(\d{1,2})\s+([A-Za-z]+)\s+(\d{4})` with groups `i`, `i+1`, `i+2`. -/
def dateWsG (i : Nat) : Rx :=
  rseqL [.grp i (rdigits 1 2), rws1, .grp (i + 1) ralpha1, rws1, .grp (i + 2) (rdigits 4 4)]

/-- Pattern 1: years with an explicit from/to date range. -/
def pattern1 : Rx :=
  rseqL [ropt (rseqL [rstr "a", rws1, rstr "term", rws1, rstr "of", rws1]),
         .grp 1 numOrWordTen, rwsStar, yearsTok, rws1,
         rstr "from", rws1, andIncl, dateWsG 2, rws1,
         .alt (rstr "to") (rstr "until"), rws1, andIncl, dateWsG 5]

def px1 (s : List Char) : Option LeaseTerm :=
  match rsearch pattern1 false s with
  | none => none
  | some g =>
    match gDate g 2 3 4, gDate g 5 6 7, gNum g 1 with
    | some sd, some ed, some y =>
      if y ≠ 0 then some ⟨sd, ed, (y : ℚ), "regex"⟩ else none
    | _, _, _ => none

/-- `(?:\s*\(?less\s+(N)\s+days?\)?)?` — the optional "less N days" clause of
patterns 2a/2/2b, capturing into group `i`. -/
def lessDaysOpt (i : Nat) : Rx :=
  ropt (rseqL [rwsStar, ropt (rchr '('), rstr "less", rws1, .grp i dPlusOrWordTen,
               rws1, daysTok, ropt (rchr ')')])

/-- Pattern 2a: fractional or word-fraction years, optional "less N days",
regular date or quarter-day start. -/
def pattern2a : Rx :=
  rseqL [aTermOf,
         .grp 1 (.alt (rseqL [rdigits 1 4, ropt (rseqL [rws1, rdigitsPlus, rchr '/', rdigitsPlus])])
                      (rseqL [rdigits 1 4, rws1, rstr "and", rws1, ropt (rseqL [rstr "a", rws1]),
                              .alt (rstr "half") (rstr "quarter")])),
         ropt (rchr '~'), rwsStar, yearsTok,
         lessDaysOpt 2,
         rws1, rstr "from", rws1, andIncl,
         .alt (dateSepG 3 sepDW)
              (rseqL [.grp 6 specialAlt, rws1, .grp 7 (rdigits 4 4)])]

def px2a (s : List Char) : Option LeaseTerm :=
  match rsearch pattern2a true s with
  | none => none
  | some g =>
    let yearsQ := (grpGet g 1).bind parse_fractional_years
    let lessDays : Option Int :=
      match grpGet g 2 with
      | none => some 0
      | some t => parse_word_number t
    let sd : Option PyDate :=
      match grpGet g 3 with
      | some _ => gDate g 3 4 5
      | none =>
        match grpGet g 6, grpGet g 7 with
        | some dn, some yr => resolve_special_day dn yr
        | _, _ => none
    match yearsQ, sd, lessDays with
    | some yf, some d, some ld =>
      if yf ≠ 0 then
        let fullYears : Int := pyTruncQ yf
        let fracMonths : Int := pyRound ((yf - (fullYears : ℚ)) * 12)
        some ⟨d, addDays (addRel d fullYears fracMonths) (-ld), yf, "regex"⟩
      else none
    | _, _, _ => none

/-- Pattern 2: integer or word years, optional "less N days", regular date. -/
def pattern2 : Rx :=
  rseqL [aTermOf, .grp 1 numOrWordTen, ropt (rchr '~'), rwsStar, yearsTok,
         lessDaysOpt 2,
         rws1, rstr "from", rws1, andIncl, dateSepG 3 sepDW]

def px2 (s : List Char) : Option LeaseTerm :=
  match rsearch pattern2 true s with
  | none => none
  | some g =>
    let lessDays : Option Int :=
      match grpGet g 2 with
      | none => some 0
      | some t => parse_word_number t
    match gNum g 1, gDate g 3 4 5, lessDays with
    | some y, some sd, some ld =>
      if y ≠ 0 then some ⟨sd, addDays (addYears sd y) (-ld), (y : ℚ), "regex"⟩ else none
    | _, _, _ => none

/-- Pattern 2b: years from a quarter day. -/
def pattern2b : Rx :=
  rseqL [aTermOf, .grp 1 numOrWordTen, ropt (rchr '~'), rwsStar, yearsTok,
         lessDaysOpt 2,
         rws1, rstr "from", rws1, andIncl,
         .grp 3 specialAlt, rws1, .grp 4 (rdigits 4 4)]

def px2b (s : List Char) : Option LeaseTerm :=
  match rsearch pattern2b true s with
  | none => none
  | some g =>
    let lessDays : Option Int :=
      match grpGet g 2 with
      | none => some 0
      | some t => parse_word_number t
    let sd : Option PyDate :=
      match grpGet g 3, grpGet g 4 with
      | some dn, some yr => resolve_special_day dn yr
      | _, _ => none
    match gNum g 1, sd, lessDays with
    | some y, some d, some ld =>
      if y ≠ 0 then some ⟨d, addDays (addYears d y) (-ld), (y : ℚ), "regex"⟩ else none
    | _, _, _ => none

/-- Pattern 2c: years and a date with the "from" keyword missing. -/
def pattern2c : Rx :=
  rseqL [aTermOf, .grp 1 numOrWordTen, ropt (rchr '~'), rwsStar, yearsTok,
         rws1, dateSepG 2 sepDW]

def px2c (s : List Char) : Option LeaseTerm :=
  match rsearch pattern2c true s with
  | none => none
  | some g =>
    match gNum g 1, gDate g 2 3 4 with
    | some y, some sd =>
      if y ≠ 0 then some ⟨sd, addYears sd y, (y : ℚ), "regex"⟩ else none
    | _, _ => none

/-- Pattern 3: plain date range; tenure is derived with
`relativedelta(expiry, start).years`. -/
def pattern3 : Rx :=
  rseqL [rstr "from", rws1, andIncl, dateWsG 1, rws1,
         raltL [rstr "to", rstr "until", rseqL [rstr "ending", rws1, rstr "on"],
                rseqL [rstr "expiring", rws1, rstr "on"],
                rseqL [rstr "and", rws1, rstr "ending", rws1, rstr "on"]],
         rws1, andIncl, dateWsG 4]

def px3 (s : List Char) : Option LeaseTerm :=
  match rsearch pattern3 false s with
  | none => none
  | some g =>
    match gDate g 1 2 3, gDate g 4 5 6 with
    | some sd, some ed => some ⟨sd, ed, (relYears ed sd : ℚ), "regex"⟩
    | _, _ => none

/-- Pattern 4: years with "beginning on ... and ending on ...". -/
def pattern4 : Rx :=
  rseqL [.grp 1 numOrWordTen, rwsStar, yearsTok, rws1,
         rstr "beginning", rws1, rstr "on", rws1, andIncl, dateWsG 2, rws1,
         rstr "and", rws1, rstr "ending", rws1, rstr "on", rws1, andIncl, dateWsG 5]

def px4 (s : List Char) : Option LeaseTerm :=
  match rsearch pattern4 false s with
  | none => none
  | some g =>
    match gDate g 2 3 4, gDate g 5 6 7, gNum g 1 with
    | some sd, some ed, some y =>
      if y ≠ 0 then some ⟨sd, ed, (y : ℚ), "regex"⟩ else none
    | _, _, _ => none

/-- Pattern 5: "beginning on ... and ending on ..." without a year count. -/
def pattern5 : Rx :=
  rseqL [rstr "beginning", rws1, rstr "on", rws1, andIncl, dateWsG 1, rws1,
         rstr "and", rws1, rstr "ending", rws1, rstr "on", rws1, andIncl, dateWsG 4]

def px5 (s : List Char) : Option LeaseTerm :=
  match rsearch pattern5 false s with
  | none => none
  | some g =>
    match gDate g 1 2 3, gDate g 4 5 6 with
    | some sd, some ed => some ⟨sd, ed, (relYears ed sd : ℚ), "regex"⟩
    | _, _ => none

/-- Pattern 6: "X years less Y months from D". -/
def pattern6 : Rx :=
  rseqL [aTermOf, .grp 1 numOrWordTen, ropt (rchr '~'), rwsStar, yearsTok,
         rws1, rstr "less", rws1, .grp 2 dPlusOrWordTwelve, rws1, monthsTok,
         rws1, rstr "from", rws1, theOpt, andIncl, dateSepG 3 sepDW]

def px6 (s : List Char) : Option LeaseTerm :=
  match rsearch pattern6 true s with
  | none => none
  | some g =>
    match gNum g 1, gNum g 2, gDate g 3 4 5 with
    | some y, some lm, some sd =>
      if y ≠ 0 && lm ≠ 0 then
        some ⟨sd, addTotalMonths (addYears sd y) (-lm), (y : ℚ), "regex"⟩
      else none
    | _, _, _ => none

/-- Pattern 7: "X years (less the last Y days) from D". -/
def pattern7 : Rx :=
  rseqL [aTermOf, .grp 1 numOrWordTen, ropt (rchr '~'), rwsStar, yearsTok,
         rwsStar, rchr '(', rstr "less", rws1, theOpt, ropt (rseqL [rstr "last", rws1]),
         .grp 2 dPlusOrWordFourteen, rws1, daysTok, rchr ')',
         rws1, rstr "from", rws1, theOpt, andIncl, dateSepG 3 sepDW]

def px7 (s : List Char) : Option LeaseTerm :=
  match rsearch pattern7 true s with
  | none => none
  | some g =>
    match gNum g 1, gNum g 2, gDate g 3 4 5 with
    | some y, some ld, some sd =>
      if y ≠ 0 && ld ≠ 0 then
        some ⟨sd, addDays (addYears sd y) (-ld), (y : ℚ), "regex"⟩
      else none
    | _, _, _ => none

/-- Pattern 8: "X years plus Y days from D". -/
def pattern8 : Rx :=
  rseqL [aTermOf, .grp 1 numOrWordTen, ropt (rchr '~'), rwsStar, yearsTok,
         rws1, rstr "plus", rws1, .grp 2 dPlusOrWordTen, rws1, daysTok,
         rws1, rstr "from", rws1, theOpt, andIncl, dateSepG 3 sepDSW]

def px8 (s : List Char) : Option LeaseTerm :=
  match rsearch pattern8 true s with
  | none => none
  | some g =>
    match gNum g 1, gNum g 2, gDate g 3 4 5 with
    | some y, some pd, some sd =>
      if y ≠ 0 && pd ≠ 0 then
        some ⟨sd, addDays (addYears sd y) pd, (y : ℚ), "regex"⟩
      else none
    | _, _, _ => none

/-- Pattern 9: "X years from [the] D". -/
def pattern9 : Rx :=
  rseqL [aTermOf, .grp 1 numOrWordTen, ropt (rchr '~'), rwsStar, yearsTok,
         rws1, rstr "from", rws1, theOpt, andIncl, dateSepG 2 sepDSW]

def px9 (s : List Char) : Option LeaseTerm :=
  match rsearch pattern9 true s with
  | none => none
  | some g =>
    match gNum g 1, gDate g 2 3 4 with
    | some y, some sd =>
      if y ≠ 0 then some ⟨sd, addYears sd y, (y : ℚ), "regex"⟩ else none
    | _, _ => none

/-- Pattern 10: numeric date ranges "From D1 to D2". -/
def pattern10 : Rx :=
  rseqL [rstr "from", rws1,
         .grp 1 (rdigits 1 2), sepDS1, .grp 2 (rdigits 1 2), sepDS1, .grp 3 (rdigits 4 4),
         rws1, rstr "to", rws1,
         .alt (rseqL [.grp 4 (rdigits 1 2), sepDS1, .grp 5 (rdigits 1 2), sepDS1,
                      .grp 6 (rdigits 4 4)])
              (dateWsG 7)]

def px10 (s : List Char) : Option LeaseTerm :=
  match rsearch pattern10 false s with
  | none => none
  | some g =>
    let sd := gDate g 1 2 3
    let ed := match grpGet g 4 with
      | some _ => gDate g 4 5 6
      | none => gDate g 7 8 9
    match sd, ed with
    | some d1, some d2 => some ⟨d1, d2, (relYears d2 d1 : ℚ), "regex"⟩
    | _, _ => none

end LeaseData

namespace LeaseData

/-- Pattern 11: "D1 to D2" without "from" (anchored). -/
def pattern11 : Rx :=
  rseqL [dateWsG 1, rws1, rstr "to", rws1, dateWsG 4]

def px11 (s : List Char) : Option LeaseTerm :=
  match rsearch pattern11 true s with
  | none => none
  | some g =>
    match gDate g 1 2 3, gDate g 4 5 6 with
    | some sd, some ed => some ⟨sd, ed, (relYears ed sd : ℚ), "regex"⟩
    | _, _ => none

/-- Pattern 12: "X from D" with the "years" keyword missing (anchored). -/
def pattern12 : Rx :=
  rseqL [.grp 1 (rdigits 1 4), rws1, rstr "from", rws1, theOpt, andIncl, dateSepG 2 sepDW]

def px12 (s : List Char) : Option LeaseTerm :=
  match rsearch pattern12 true s with
  | none => none
  | some g =>
    match gNum g 1, gDate g 2 3 4 with
    | some y, some sd =>
      if y ≠ 0 then some ⟨sd, addYears sd y, (y : ℚ), "regex"⟩ else none
    | _, _ => none

/-- Pattern 13: "from D for X years". -/
def pattern13 : Rx :=
  rseqL [rstr "from", rws1, andIncl, dateWsG 1, rws1,
         rstr "for", rws1, .grp 4 numOrWordTen, rwsStar, yearsTok]

def px13 (s : List Char) : Option LeaseTerm :=
  match rsearch pattern13 false s with
  | none => none
  | some g =>
    match gDate g 1 2 3, gNum g 4 with
    | some sd, some y =>
      if y ≠ 0 then some ⟨sd, addYears sd y, (y : ℚ), "regex"⟩ else none
    | _, _ => none

/-- Pattern 14: "X years and Y days commencing on D". -/
def pattern14 : Rx :=
  rseqL [.grp 1 (rdigits 1 4), rwsStar, yearsTok, rws1, rstr "and", rws1,
         .grp 2 rdigitsPlus, rwsStar, daysTok, rws1,
         rstr "commencing", rws1, onOpt, andIncl, dateSepG 3 sepDSW]

def px14 (s : List Char) : Option LeaseTerm :=
  match rsearch pattern14 false s with
  | none => none
  | some g =>
    match gNum g 1, gNum g 2, gDate g 3 4 5 with
    | some y, some pd, some sd =>
      if y ≠ 0 then some ⟨sd, addDays (addYears sd y) pd, (y : ℚ), "regex"⟩ else none
    | _, _, _ => none

/-- Pattern 15: "X years commencing on D and expiring/ending on D". -/
def pattern15 : Rx :=
  rseqL [.grp 1 (rdigits 1 4), rwsStar, yearsTok, rws1,
         rstr "commencing", rws1, onOpt, andIncl, dateSepG 2 sepDSW, rws1,
         rstr "and", rws1, .alt (rstr "expiring") (rstr "ending"), rws1, onOpt, andIncl,
         dateSepG 5 sepDSW]

def px15 (s : List Char) : Option LeaseTerm :=
  match rsearch pattern15 false s with
  | none => none
  | some g =>
    match gNum g 1, gDate g 2 3 4, gDate g 5 6 7 with
    | some y, some sd, some ed =>
      if y ≠ 0 then some ⟨sd, ed, (y : ℚ), "regex"⟩ else none
    | _, _, _ => none

/-- Pattern 16: "X years beginning on D inclusive and ending on D inclusive". -/
def pattern16 : Rx :=
  rseqL [.grp 1 (rdigits 1 4), rwsStar, yearsTok, rws1,
         rstr "beginning", rws1, onOpt, dateSepG 2 sepDSW, rwsStar,
         ropt (rstr "inclusive"), rws1,
         rstr "and", rws1, rstr "ending", rws1, onOpt, dateSepG 5 sepDSW, rwsStar,
         ropt (rstr "inclusive")]

def px16 (s : List Char) : Option LeaseTerm :=
  match rsearch pattern16 false s with
  | none => none
  | some g =>
    match gNum g 1, gDate g 2 3 4, gDate g 5 6 7 with
    | some y, some sd, some ed =>
      if y ≠ 0 then some ⟨sd, ed, (y : ℚ), "regex"⟩ else none
    | _, _, _ => none

/-- Pattern 17: "X years beginning on D" with no end date. -/
def pattern17 : Rx :=
  rseqL [.grp 1 (rdigits 1 4), rwsStar, yearsTok, rws1,
         rstr "beginning", rws1, onOpt, andIncl, dateSepG 2 sepDSW,
         .alt (.cls isPyWs) .eos]

def px17 (s : List Char) : Option LeaseTerm :=
  match rsearch pattern17 false s with
  | none => none
  | some g =>
    match gNum g 1, gDate g 2 3 4 with
    | some y, some sd =>
      if y ≠ 0 then some ⟨sd, addYears sd y, (y : ℚ), "regex"⟩ else none
    | _, _ => none

/-- Pattern 18: "X years commencing on D and ending on D". -/
def pattern18 : Rx :=
  rseqL [.grp 1 (rdigits 1 4), rwsStar, yearsTok, rws1,
         rstr "commencing", rws1, onOpt, andIncl, dateSepG 2 sepDSW, rws1,
         rstr "and", rws1, rstr "ending", rws1, onOpt, andIncl, dateSepG 5 sepDSW]

def px18 (s : List Char) : Option LeaseTerm :=
  match rsearch pattern18 false s with
  | none => none
  | some g =>
    match gNum g 1, gDate g 2 3 4, gDate g 5 6 7 with
    | some y, some sd, some ed =>
      if y ≠ 0 then some ⟨sd, ed, (y : ℚ), "regex"⟩ else none
    | _, _, _ => none

/-- Pattern 19: "From D for a term of years expiring on D". -/
def pattern19 : Rx :=
  rseqL [rstr "from", rws1, andIncl, dateSepG 1 sepDSW, rws1,
         rstr "for", rws1, rstr "a", rws1, rstr "term", rws1,
         ropt (rseqL [rstr "of", rws1]), ropt (rseqL [yearsTok, rws1]),
         rstr "expiring", rws1, onOpt, andIncl, dateSepG 4 sepDSW]

def px19 (s : List Char) : Option LeaseTerm :=
  match rsearch pattern19 false s with
  | none => none
  | some g =>
    match gDate g 1 2 3, gDate g 4 5 6 with
    | some sd, some ed => some ⟨sd, ed, (relYears ed sd : ℚ), "regex"⟩
    | _, _ => none

/-- Pattern 20: "commencing on D for a term of X years". -/
def pattern20 : Rx :=
  rseqL [rstr "commencing", rws1, onOpt, andIncl, dateSepG 1 sepDSW, rws1,
         rstr "for", rws1, rstr "a", rws1, rstr "term", rws1,
         ropt (rseqL [rstr "of", rws1]), .grp 4 (rdigits 1 4), rwsStar, yearsTok]

def px20 (s : List Char) : Option LeaseTerm :=
  match rsearch pattern20 false s with
  | none => none
  | some g =>
    match gDate g 1 2 3, gNum g 4 with
    | some sd, some y =>
      if y ≠ 0 then some ⟨sd, addYears sd y, (y : ℚ), "regex"⟩ else none
    | _, _ => none

/-- Pattern 21: "X years commencing on D" with no end date. -/
def pattern21 : Rx :=
  rseqL [.grp 1 (rdigits 1 4), rwsStar, yearsTok, rws1,
         rstr "commencing", rws1, onOpt, andIncl, dateSepG 2 sepDSW,
         .alt (.cls isPyWs) .eos]

def px21 (s : List Char) : Option LeaseTerm :=
  match rsearch pattern21 false s with
  | none => none
  | some g =>
    match gNum g 1, gDate g 2 3 4 with
    | some y, some sd =>
      if y ≠ 0 then some ⟨sd, addYears sd y, (y : ℚ), "regex"⟩ else none
    | _, _ => none

/-- Pattern 22: "beginning on D [and] ending on D". -/
def pattern22 : Rx :=
  rseqL [rstr "beginning", rws1, onOpt, andIncl, dateSepG 1 sepDSW, rwsStar,
         ropt (rseqL [rstr "and", rws1]), rstr "ending", rws1, onOpt, andIncl,
         dateSepG 4 sepDSW]

def px22 (s : List Char) : Option LeaseTerm :=
  match rsearch pattern22 false s with
  | none => none
  | some g =>
    match gDate g 1 2 3, gDate g 4 5 6 with
    | some sd, some ed => some ⟨sd, ed, (relYears ed sd : ℚ), "regex"⟩
    | _, _ => none

/-- Pattern 23: word-number years with "beginning on D". -/
def pattern23 : Rx :=
  rseqL [.grp 1 wordNumsAll, rwsStar, yearsTok, rws1,
         rstr "beginning", rws1, onOpt, andIncl, dateSepG 2 sepDSW]

def px23 (s : List Char) : Option LeaseTerm :=
  match rsearch pattern23 false s with
  | none => none
  | some g =>
    match gNum g 1, gDate g 2 3 4 with
    | some y, some sd =>
      if y ≠ 0 then some ⟨sd, addYears sd y, (y : ℚ), "regex"⟩ else none
    | _, _ => none

/-- Pattern 24: "A term commencing on D and expiring on D". -/
def pattern24 : Rx :=
  rseqL [ropt (rseqL [rstr "a", rws1]), rstr "term", rws1,
         rstr "commencing", rws1, onOpt, andIncl, dateSepG 1 sepDSW, rws1,
         rstr "and", rws1, rstr "expiring", rws1, onOpt, andIncl, dateSepG 4 sepDSW]

def px24 (s : List Char) : Option LeaseTerm :=
  match rsearch pattern24 false s with
  | none => none
  | some g =>
    match gDate g 1 2 3, gDate g 4 5 6 with
    | some sd, some ed => some ⟨sd, ed, (relYears ed sd : ℚ), "regex"⟩
    | _, _ => none

/-- Pattern 25: "X years on and from D". -/
def pattern25 : Rx :=
  rseqL [.grp 1 numOrWordTen, rwsStar, yearsTok, rws1,
         rstr "on", rws1, rstr "and", rws1, rstr "from", rws1, dateSepG 2 sepDSW]

def px25 (s : List Char) : Option LeaseTerm :=
  match rsearch pattern25 false s with
  | none => none
  | some g =>
    match gNum g 1, gDate g 2 3 4 with
    | some y, some sd =>
      if y ≠ 0 then some ⟨sd, addYears sd y, (y : ℚ), "regex"⟩ else none
    | _, _ => none

/-- Pattern 26: "commencing on D and expiring on D" without a year count. -/
def pattern26 : Rx :=
  rseqL [rstr "commencing", rws1, onOpt, andIncl, dateSepG 1 sepDSW, rws1,
         rstr "and", rws1, rstr "expiring", rws1, onOpt, andIncl, dateSepG 4 sepDSW]

def px26 (s : List Char) : Option LeaseTerm :=
  match rsearch pattern26 false s with
  | none => none
  | some g =>
    match gDate g 1 2 3, gDate g 4 5 6 with
    | some sd, some ed => some ⟨sd, ed, (relYears ed sd : ℚ), "regex"⟩
    | _, _ => none

/-- Pattern 27: "X years less Y days beginning on D". -/
def pattern27 : Rx :=
  rseqL [.grp 1 numOrWordTen, rwsStar, yearsTok, rws1,
         rstr "less", rws1, .grp 2 dPlusOrWordTwenty, rwsStar, daysTok, rws1,
         rstr "beginning", rws1, onOpt, andIncl, dateSepG 3 sepDSW]

def px27 (s : List Char) : Option LeaseTerm :=
  match rsearch pattern27 false s with
  | none => none
  | some g =>
    match gNum g 1, gNum g 2, gDate g 3 4 5 with
    | some y, some ld, some sd =>
      if y ≠ 0 then some ⟨sd, addDays (addYears sd y) (-ld), (y : ℚ), "regex"⟩ else none
    | _, _, _ => none

/-- Pattern 28: word-number years with "commencing on D". -/
def pattern28 : Rx :=
  rseqL [.grp 1 wordNumsAll, rwsStar, yearsTok, rws1,
         rstr "commencing", rws1, onOpt, andIncl, dateSepG 2 sepDSW]

def px28 (s : List Char) : Option LeaseTerm :=
  match rsearch pattern28 false s with
  | none => none
  | some g =>
    match gNum g 1, gDate g 2 3 4 with
    | some y, some sd =>
      if y ≠ 0 then some ⟨sd, addYears sd y, (y : ℚ), "regex"⟩ else none
    | _, _ => none

/-- The pattern/extractor cascade in source order. -/
def cascade : List (List Char → Option LeaseTerm) :=
  [px1, px2a, px2, px2b, px2c, px3, px4, px5, px6, px7, px8, px9, px10, px11,
   px12, px13, px14, px15, px16, px17, px18, px19, px20, px21, px22, px23,
   px24, px25, px26, px27, px28]

/-- First extractor in the cascade that succeeds. -/
def tryCascade (fs : List (List Char → Option LeaseTerm)) (t : List Char) :
    Option LeaseTerm :=
  match fs with
  | [] => none
  | f :: rest =>
    match f t with
    | some r => some r
    | none => tryCascade rest t

/-- Embedding of `parse_lease_term(term_str)` as it stands in
`src/utils/regex_extractors.py`: normalise, then try the patterns in source
order, returning the first successful extraction. -/
def parse_lease_term (term : String) : Option LeaseTerm :=
  if term = "" then none
  else tryCascade cascade (lowerL (normalise_term_str term.data))

end LeaseData

/-! ## DOL-dependent patterns (spec §4.C Group 6)

The repository's tests and the batch driver call
`parse_lease_term(term_str, dol=...)` and import `parse_dol_date`, but the
copy of `regex_extractors.py` in the source tree has neither the `dol`
parameter nor the Group-6 patterns, so this part is modelled from the
specification. -/

namespace LeaseData

/-- Modelled from the spec: the calendar-aware tenure derivation of §4.C for
date ranges — "use a year-month-day delta and round up the year count if the
remainder is within 30 days of the next full year". -/
def calcYearsRoundUp (d1 d2 : PyDate) : Int :=
  let ys := relYears d1 d2
  let gap := diffDays (addYears d2 (ys + 1)) d1
  if 0 < gap && gap ≤ 30 then ys + 1 else ys

/-- Modelled from the spec: Group-6 pattern "N years from the date of the
lease". -/
def rxG6FromLease : Rx :=
  rseqL [aTermOf, .grp 1 (rdigits 1 4), rwsStar, yearsTok, rws1, rstr "from", rws1,
         theOpt, rstr "date", rws1, rstr "of", rws1, theOpt, rstr "lease"]

/-- Modelled from the spec: Group-6 pattern "[a] term [of years]
expiring/ending on D". -/
def rxG6TermExpiring : Rx :=
  rseqL [ropt (rseqL [rstr "a", rws1]), rstr "term", rws1,
         ropt (rseqL [rstr "of", rws1]), ropt (rseqL [yearsTok, rws1]),
         .alt (rstr "expiring") (rstr "ending"), rws1, onOpt, andIncl, dateWsG 1]

/-- Modelled from the spec: Group-6 pattern "expiring on D" alone. -/
def rxG6Expiring : Rx :=
  rseqL [rstr "expiring", rws1, onOpt, andIncl, dateWsG 1]

/-- Modelled from the spec: Group-6 pattern "N years" alone. -/
def rxG6YearsOnly : Rx :=
  rseqL [aTermOf, .grp 1 (rdigits 1 4), rwsStar, yearsTok, .eos]

/-- Modelled from the spec: Group-6 incomplete pattern "N years
from/commencing". -/
def rxG6Incomplete : Rx :=
  rseqL [.grp 1 (rdigits 1 4), rwsStar, yearsTok, rws1,
         .alt (rstr "from") (rstr "commencing"), .eos]

/-- Modelled from the spec: the Group-6 extraction given the parsed `dol`
date `d`.  "N years" forms take `dol` as start and add the years; the
expiry-only forms take `dol` as start and derive the tenure with the
round-up rule. -/
def parseGroup6 (t : List Char) (d : PyDate) : Option LeaseTerm :=
  let yearsForm : Rx → Bool → Option LeaseTerm := fun rx anchored =>
    match rsearch rx anchored t with
    | none => none
    | some g =>
      match gNum g 1 with
      | some y => if y ≠ 0 then some ⟨d, addYears d y, (y : ℚ), "regex"⟩ else none
      | none => none
  let expiryForm : Rx → Option LeaseTerm := fun rx =>
    match rsearch rx false t with
    | none => none
    | some g =>
      match gDate g 1 2 3 with
      | some ed => some ⟨d, ed, (calcYearsRoundUp ed d : ℚ), "regex"⟩
      | none => none
  match yearsForm rxG6FromLease false with
  | some r => some r
  | none =>
    match expiryForm rxG6TermExpiring with
    | some r => some r
    | none =>
      match expiryForm rxG6Expiring with
      | some r => some r
      | none =>
        match yearsForm rxG6YearsOnly true with
        | some r => some r
        | none => yearsForm rxG6Incomplete true

/-- Modelled from the spec: `parse_lease_term(term_str, dol=None)` as called
by `process_record` and the tests — the source-tree cascade first, then, when
it fails and a `dol` value is present and parses, the Group-6 DOL-dependent
patterns. -/
def parse_lease_term_dol (term : String) (dol : Option String) : Option LeaseTerm :=
  match parse_lease_term term with
  | some r => some r
  | none =>
    match dol with
    | none => none
    | some ds =>
      match parse_dol_date ds.data with
      | none => none
      | some d =>
        if term = "" then none
        else parseGroup6 (lowerL (normalise_term_str term.data)) d

/-! ## Lease-term validator (`lease_term_validator.py`) -/

/-- A Python value as stored in a lease dictionary field: a `datetime`, an
`int`/`float` (modelled as a rational), or a value of any other type. -/
inductive PyVal where
  | vDate (d : PyDate)
  | vNum (q : ℚ)
  | vOther
  deriving DecidableEq, Repr

/-- The dictionary passed to `validate_lease_term` (presence of each of the
three required keys, and the value stored under it). -/
structure LeaseDict where
  start_date : Option PyVal
  expiry_date : Option PyVal
  tenure_years : Option PyVal
  deriving DecidableEq, Repr

/-- `LeaseTermValidationResult`, reduced to the error and warning codes (the
messages carry no further logic). -/
structure VResult where
  errors : List String
  warnings : List String
  deriving DecidableEq, Repr

/-- `LeaseTermValidationResult.is_valid`: no errors (warnings acceptable). -/
def VResult.is_valid (r : VResult) : Bool := r.errors.isEmpty

/-- Embedding of `validate_lease_term(lease_data, reference_date,
tolerance_days)`.  The reference date is an explicit argument (the Python
default is `datetime.now()`).  The one divergence from the source is noted on
the theorems that need it: for a huge positive tenure Python's
`start_date + relativedelta(years=int(tenure_years))` raises once the year
leaves `datetime`'s range, while this embedding's calendar is unbounded. -/
def validate_lease_term (leaseData : Option LeaseDict) (referenceDate : PyDate)
    (toleranceDays : Int) : VResult :=
  match leaseData with
  | none => ⟨["NULL_DATA"], []⟩
  | some d =>
    let missing :=
      (if d.start_date = none then ["MISSING_FIELD"] else []) ++
      (if d.expiry_date = none then ["MISSING_FIELD"] else []) ++
      (if d.tenure_years = none then ["MISSING_FIELD"] else [])
    if missing ≠ [] then ⟨missing, []⟩
    else
      match d.start_date, d.expiry_date, d.tenure_years with
      | some sv, some ev, some tv =>
        let typeErrs :=
          (match sv with | .vDate _ => [] | _ => ["INVALID_TYPE"]) ++
          (match ev with | .vDate _ => [] | _ => ["INVALID_TYPE"]) ++
          (match tv with | .vNum _ => [] | _ => ["INVALID_TYPE"])
        if typeErrs ≠ [] then ⟨typeErrs, []⟩
        else
          match sv, ev, tv with
          | .vDate sd, .vDate ed, .vNum tq =>
            let e1 := if toRD ed ≤ toRD sd then ["INVALID_DATE_ORDER"] else []
            let e2 := if tq ≤ 0 then ["INVALID_TENURE"] else []
            let w1 :=
              if 0 < tq then
                (if toleranceDays < ((diffDays (addYears sd (pyTruncQ tq)) ed).natAbs : Int)
                 then ["TENURE_MISMATCH"] else [])
              else []
            let w2 := if toRD referenceDate < toRD sd then ["FUTURE_START_DATE"] else []
            let w3 := if toRD sd < toRD ⟨1800, 1, 1⟩ then ["UNREASONABLE_START_DATE"] else []
            let w4 := if (1000 : ℚ) < tq then ["EXCESSIVE_TENURE"] else []
            let w5 := if toRD ed < toRD referenceDate then ["LEASE_EXPIRED"] else []
            ⟨e1 ++ e2, w1 ++ w2 ++ w3 ++ w4 ++ w5⟩
          | _, _, _ => ⟨["INVALID_TYPE"], []⟩
      | _, _, _ => ⟨["MISSING_FIELD"], []⟩

/-- `is_lease_term_valid(lease_data, reference_date, tolerance_days)`. -/
def is_lease_term_valid (leaseData : Option LeaseDict) (referenceDate : PyDate)
    (toleranceDays : Int) : Bool :=
  (validate_lease_term leaseData referenceDate toleranceDays).is_valid

/-- The dictionary produced by `parse_lease_term`, as seen by the validator. -/
def LeaseTerm.toDict (lt : LeaseTerm) : LeaseDict :=
  ⟨some (.vDate lt.start_date), some (.vDate lt.expiry_date), some (.vNum lt.tenure_years)⟩

end LeaseData

/-! ## Neural-output parser (`_parse_t5_output` in `utils/t5_extractor.py` and
`main_t5_extractor.py`; the two copies are identical on the fields used
here) -/

namespace LeaseData

/-- The parsed triple built by `_parse_t5_output`. -/
structure T5Parsed where
  start_date : Option PyDate
  expiry_date : Option PyDate
  tenure_years : Option Int
  deriving DecidableEq, Repr

/-- One `DD/MM/YYYY` token (the regex `\d{2}/\d{2}/\d{4}`) at the head of the
input: the matched characters and the rest. -/
def dateTok10 (s : List Char) : Option (List Char × List Char) :=
  match s with
  | a :: b :: s1 :: c :: d :: s2 :: e :: f :: g :: h :: rest =>
    if isDigitC a && isDigitC b && s1 == '/' && isDigitC c && isDigitC d && s2 == '/' &&
       isDigitC e && isDigitC f && isDigitC g && isDigitC h then
      some ([a, b, s1, c, d, s2, e, f, g, h], rest)
    else none
  | _ => none

/-- Combined `re.findall(date_pattern, output)` and
`re.sub(date_pattern, '', output)`: the date tokens in scan order, and the
input with those tokens removed. -/
def scanDatesAux : Nat → List Char → List (List Char) × List Char
  | 0, s => ([], s)
  | fuel + 1, s =>
    match s with
    | [] => ([], [])
    | a :: t =>
      match dateTok10 s with
      | some (tok, rest) =>
        let p := scanDatesAux fuel rest
        (tok :: p.1, p.2)
      | none =>
        let p := scanDatesAux fuel t
        (p.1, a :: p.2)

/-- Case-sensitive prefix test. -/
def isPrefExact : List Char → List Char → Bool
  | [], _ => true
  | _ :: _, [] => false
  | a :: as, b :: bs => a == b && isPrefExact as bs

/-- `str.replace(w, '')`: delete the non-overlapping occurrences of `w`,
left to right. -/
def removeSub (w : List Char) : Nat → List Char → List Char
  | 0, s => s
  | _ + 1, [] => []
  | fuel + 1, c :: t =>
    if isPrefExact w (c :: t) && w ≠ [] then removeSub w fuel ((c :: t).drop w.length)
    else c :: removeSub w fuel t

/-- Case-sensitive contiguous-substring test. -/
def containsSub (w : List Char) : Nat → List Char → Bool
  | 0, _ => false
  | _ + 1, [] => w = []
  | fuel + 1, c :: t => isPrefExact w (c :: t) || containsSub w fuel t

/-- First `\d{4}` occurrence (`re.search(r'\d{4}', s)`). -/
def firstFourDigits : Nat → List Char → Option Int
  | 0, _ => none
  | _ + 1, [] => none
  | fuel + 1, c :: t =>
    match c :: t with
    | a :: b :: d :: e :: _ =>
      if isDigitC a && isDigitC b && isDigitC d && isDigitC e then
        some (digitsToNat [a, b, d, e] : Int)
      else firstFourDigits fuel t
    | _ => firstFourDigits fuel t

/-- The special-day table of the T5 `_parse_date` fallback. -/
def t5SpecialDays : List (List Char × (Int × Int)) :=
  [("christmas".data, (12, 25)), ("midsummer".data, (6, 24)),
   ("lady day".data, (3, 25)), ("michaelmas".data, (9, 29))]

/-- Embedding of `T5LeaseExtractor._parse_date(date_str)`: the sentinel
strings map to `None`; then `%d/%m/%Y`, `%d.%m.%Y`, `%d-%m-%Y`; then the
special-day substring fallback with the first four-digit year in the string.
A year outside `datetime`'s range yields `none` here where Python would
raise from the `datetime` constructor (no caller reaches that case with the
`\d{4}`-shaped inputs the theorems use). -/
def t5_parse_date (ds : List Char) : Option PyDate :=
  if ds = [] || lowerL ds = "not specified".data || lowerL ds = "residential".data then none
  else
    let t := stripL ds
    let trySep : Char → Option PyDate := fun sep =>
      match t.splitOn sep with
      | [d, m, y] =>
        match fieldNat d 2, fieldNat m 2, fieldNat y 4 with
        | some dv, some mv, some yv =>
          if 1 ≤ mv && mv ≤ 12 && 1 ≤ yv && yv ≤ 9999 && 1 ≤ dv &&
             dv ≤ daysInMonth yv mv then some ⟨yv, mv, dv⟩ else none
        | _, _, _ => none
      | _ => none
    match trySep '/' with
    | some d => some d
    | none =>
      match trySep '.' with
      | some d => some d
      | none =>
        match trySep '-' with
        | some d => some d
        | none =>
          let tl := lowerL t
          (t5SpecialDays.foldl (fun acc nm =>
            match acc with
            | some d => some d
            | none =>
              if containsSub nm.1 (tl.length + 1) tl then
                match firstFourDigits (t.length + 1) t with
                | some y =>
                  if 1 ≤ y && y ≤ 9999 then some ⟨y, nm.2.1, nm.2.2⟩ else none
                | none => none
              else none) none)

/-- The tenure regex `(\d+)\s*years?` of `_parse_tenure`. -/
def rxT5Tenure : Rx := rseqL [.grp 1 rdigitsPlus, rwsStar, yearsTok]

/-- Embedding of `T5LeaseExtractor._parse_tenure(tenure_str)`. -/
def t5_parse_tenure (ts : List Char) : Option Int :=
  if ts = [] || lowerL ts = "not specified".data || lowerL ts = "residential".data then none
  else
    match rsearch rxT5Tenure false (lowerL ts) with
    | none => none
    | some g =>
      match grpGet g 1 with
      | some n => some (digitsToNat n : Int)
      | none => none

/-- The special-day search of `_parse_t5_output`:
`(Christmas|Midsummer|Lady|Michaelmas)(?:\s+Day)?\s+(\d{4})`. -/
def rxT5Special : Rx :=
  rseqL [.grp 1 (raltL [rstr "christmas", rstr "midsummer", rstr "lady", rstr "michaelmas"]),
         ropt (rseqL [rws1, rstr "day"]), rws1, .grp 2 (rdigits 4 4)]

/-- The special-day branch of `_parse_t5_output` (`datetime(year, month,
day)` modelled as `none` outside the constructor's range, as above). -/
def t5SpecialStart (t : List Char) : Option PyDate :=
  match rsearch rxT5Special false (lowerL t) with
  | none => none
  | some g =>
    match grpGet g 1, grpGet g 2 with
    | some nm, some yr =>
      match t5SpecialDays.lookup nm with
      | some md =>
        let y : Int := (digitsToNat yr : Int)
        if 1 ≤ y && y ≤ 9999 then some ⟨y, md.1, md.2⟩ else none
      | none => none
    | _, _ => none

/-- Embedding of `_parse_t5_output` up to (but not including) the two
"fill in the third leg" steps at its end. -/
def parse_t5_raw (output : String) : T5Parsed :=
  if output = "" then ⟨none, none, none⟩
  else
    let t := stripL output.data
    let sc := scanDatesAux (t.length + 1) t
    let start0 := match sc.1 with | d1 :: _ => t5_parse_date d1 | [] => none
    let expiry0 := match sc.1 with | _ :: d2 :: _ => t5_parse_date d2 | _ => none
    let remaining := stripL (removeSub "Not specified".data (sc.2.length + 1) sc.2)
    let tenure0 := if remaining ≠ [] then t5_parse_tenure remaining else none
    if sc.1 = [] && start0 = none && expiry0 = none then
      ⟨t5SpecialStart t, expiry0, t5_parse_tenure t⟩
    else ⟨start0, expiry0, tenure0⟩

/-- The two derivation steps at the end of `_parse_t5_output`: derive the
expiry from start and (truthy) tenure, then the tenure from start and expiry
when the tenure is absent or zero (`not tenure_years`). -/
def applyFills (p : T5Parsed) : T5Parsed :=
  let p1 : T5Parsed :=
    match p.start_date, p.tenure_years, p.expiry_date with
    | some sd, some ty, none =>
      if ty ≠ 0 then { p with expiry_date := some (addYears sd ty) } else p
    | _, _, _ => p
  match p1.start_date, p1.expiry_date with
  | some sd, some ed =>
    if p1.tenure_years = none || p1.tenure_years = some 0 then
      let d := relDelta ed sd
      { p1 with tenure_years := some (if 6 ≤ d.2.1 then d.1 + 1 else d.1) }
    else p1
  | _, _ => p1

/-- Embedding of the whole `_parse_t5_output(output)`. -/
def parse_t5_output (output : String) : T5Parsed := applyFills (parse_t5_raw output)

end LeaseData

/-! ## Address matcher batch lookups (`addressbase/match_addresses.py`) -/

namespace LeaseData

/-- The columns of an `ab_plus` reference row that the batch-lookup queries
read (text columns are nullable in the table). -/
structure AbRow where
  building_number : Option String
  building_name : Option String
  thoroughfare : Option String
  postcode : Option String
  post_town : Option String
  deriving DecidableEq, Repr

/-- One row of the temporary lookup table (`lookup_batch_pc` /
`lookup_batch_city`): input house number, its precomputed base number, road
and area (postcode or city, depending on the variant). -/
structure LookupRow where
  house_number : String
  base_number : String
  road : String
  area : String
  deriving DecidableEq, Repr

/-- Embedding of `extract_base_number(house_number)`: take the left side of a
`-` range, then the leading digit run, falling back to the (possibly
range-stripped) input. -/
def extract_base_number (hn : String) : String :=
  let h := if hn.data.contains '-' then stripL ((hn.data.splitOn '-').headD []) else hn.data
  let lead := h.takeWhile isDigitC
  if lead ≠ [] then ⟨lead⟩ else ⟨h⟩

/-- SQL `UPPER(a) = UPPER(b)` with `a` a nullable column (`NULL` comparisons
are not satisfied). -/
def sqlUpEq (a : Option String) (b : String) : Bool :=
  match a with
  | some x => upperL x.data == upperL b.data
  | none => false

/-- Case-sensitive list-prefix test. -/
def isPrefL : List Char → List Char → Bool
  | [], _ => true
  | _ :: _, [] => false
  | a :: as, b :: bs => a == b && isPrefL as bs

/-- SQL `UPPER(a) LIKE UPPER(b) || '%'` for the wildcard-free base numbers
the matcher builds: a case-folded prefix test, `NULL` never matching. -/
def sqlUpLike (a : Option String) (b : String) : Bool :=
  match a with
  | some x => isPrefL (upperL b.data) (upperL x.data)
  | none => false

/-- The `CASE` expression assigning `match_priority` (1 = exact number,
2 = exact name, 3 = fuzzy number by base, 4 = fuzzy name by base); `none` is
the SQL `NULL` of a fall-through. -/
def matchPri (lb : LookupRow) (ab : AbRow) : Option Nat :=
  if sqlUpEq ab.building_number lb.house_number then some 1
  else if sqlUpEq ab.building_name lb.house_number then some 2
  else if sqlUpEq ab.building_number lb.base_number ||
          sqlUpLike ab.building_number lb.base_number then some 3
  else if sqlUpEq ab.building_name lb.base_number ||
          sqlUpLike ab.building_name lb.base_number then some 4
  else none

/-- The `JOIN ... ON` condition of the ranked-matches query, with `area`
selecting the column compared against the lookup row's area (postcode for
`_batch_lookup_by_postcode`, post town for `_batch_lookup_by_city`). -/
def joinCond (area : AbRow → Option String) (lb : LookupRow) (ab : AbRow) : Bool :=
  sqlUpEq ab.thoroughfare lb.road && sqlUpEq (area ab) lb.area &&
  (sqlUpEq ab.building_number lb.house_number ||
   sqlUpEq ab.building_name lb.house_number ||
   sqlUpEq ab.building_number lb.base_number ||
   sqlUpLike ab.building_number lb.base_number ||
   sqlUpEq ab.building_name lb.base_number ||
   sqlUpLike ab.building_name lb.base_number)

/-- Priority of a reference row for a lookup key, defined (non-`NULL`) exactly
on the rows the join admits. -/
def rowPri (area : AbRow → Option String) (lb : LookupRow) (ab : AbRow) : Option Nat :=
  if joinCond area lb ab then matchPri lb ab else none

/-- The `SELECT DISTINCT ON (key) ... ORDER BY key, match_priority` step for a
single lookup key: keep a running best row; a strictly smaller priority
replaces it (so ties keep the earlier row, one of the choices `DISTINCT ON`
may make). -/
def pickMinRow (area : AbRow → Option String) (lb : LookupRow) :
    List AbRow → Option (AbRow × Nat) → Option (AbRow × Nat)
  | [], acc => acc
  | ab :: rest, acc =>
    let acc' :=
      match rowPri area lb ab with
      | none => acc
      | some p =>
        match acc with
        | none => some (ab, p)
        | some bp => if p < bp.2 then some (ab, p) else acc
    pickMinRow area lb rest acc'

/-- The row `_batch_lookup_by_postcode` returns for one lookup key. -/
def lookupByPostcode (lb : LookupRow) (rows : List AbRow) : Option (AbRow × Nat) :=
  pickMinRow (fun ab => ab.postcode) lb rows none

/-- The row `_batch_lookup_by_city` returns for one lookup key. -/
def lookupByCity (lb : LookupRow) (rows : List AbRow) : Option (AbRow × Nat) :=
  pickMinRow (fun ab => ab.post_town) lb rows none

/-! ## Document-store enricher (`enricher/update_mongo_from_csv.py`) -/

/-- A present (non-NaN) CSV cell. -/
inductive CsvCell where
  | str (s : String)
  | num (q : ℚ)
  deriving DecidableEq, Repr

/-- A row of the found-addresses CSV: the uid cell (absent when NaN) and the
present cells of the other columns by CSV column name. -/
structure CsvRow where
  uid : Option String
  cells : List (String × CsvCell)
  deriving DecidableEq, Repr

/-- `ADDRESS_FIELD_MAPPING`: CSV column to document field. -/
def addressFieldMapping : List (String × String) :=
  [("uprn", "ab_uprn"), ("udprn", "udprn"), ("building_name", "building_name"),
   ("building_number", "building_number"), ("thoroughfare", "thoroughfare"),
   ("post_town", "post_town"), ("postcode", "ab_postcode"),
   ("x_coordinate", "x_coordinate"), ("y_coordinate", "y_coordinate"),
   ("latitude", "latitude"), ("longitude", "longitude"), ("class", "class")]

/-- A value written into the update document. -/
inductive BsonVal where
  | cell (c : CsvCell)
  | geoPoint (lon lat : ℚ)
  deriving DecidableEq, Repr

/-- A bulk operation of `process_chunk`. -/
inductive MongoOp where
  | updateMany (uid : String) (doc : List (String × BsonVal))
  | deleteMany (uid : String)
  deriving DecidableEq, Repr

/-- The `class` column as `process_chunk` reads it (`row.get("class", "")`):
the stored string when the cell is present, `none` when it is NaN or the
column is absent (both take the non-residential branch, like the `""`
default). -/
def classValue (r : CsvRow) : Option String :=
  match r.cells.lookup "class" with
  | some (.str s) => some s
  | _ => none

/-- Embedding of `is_residential(class_value)`: NaN is not residential,
otherwise the first character of the stripped value must be in
`{R, X, P}`. -/
def is_residential (cv : Option String) : Bool :=
  match cv with
  | none => false
  | some s =>
    let t := (stripL s.data).take 1
    t == ['R'] || t == ['X'] || t == ['P']

/-- A numeric cell, for the latitude/longitude GeoJSON check. -/
def numCell (r : CsvRow) (k : String) : Option ℚ :=
  match r.cells.lookup k with
  | some (.num q) => some q
  | _ => none

/-- The `$set` document built for a residential row: the mapped non-NaN
cells, plus the GeoJSON point when both coordinates are present. -/
def buildUpdateDoc (r : CsvRow) : List (String × BsonVal) :=
  (addressFieldMapping.filterMap fun kv =>
    (r.cells.lookup kv.1).map fun v => (kv.2, BsonVal.cell v)) ++
  (match numCell r "latitude", numCell r "longitude" with
   | some la, some lo => [("location", .geoPoint lo la)]
   | _, _ => [])

/-- Embedding of the per-row body of `process_chunk`: skip rows without a
usable uid; residential rows produce an `UpdateMany` `$set` (when the built
document is non-empty), all other rows produce a `DeleteMany`. -/
def process_row (r : CsvRow) : Option MongoOp :=
  match r.uid with
  | none => none
  | some u =>
    if u = "" then none
    else if is_residential (classValue r) then
      let doc := buildUpdateDoc r
      if doc ≠ [] then some (.updateMany u doc) else none
    else some (.deleteMany u)

/-! ## Postcode geocoding with cache (`enricher/update_mongo_from_csv.py`) -/

/-- A geocoding result (`latitude`, `longitude`, `eastings`, `northings`). -/
structure Geo where
  latitude : Option ℚ
  longitude : Option ℚ
  x_coordinate : Option ℚ
  y_coordinate : Option ℚ
  deriving DecidableEq, Repr

/-- `PostcodeCache._cache`: a map from normalised postcode to a result, with
`none` values as the negative cache. -/
abbrev PcCache := List (String × Option Geo)

/-- `PostcodeCache._normalize_postcode`: strip, uppercase, delete spaces. -/
def normalizePc (s : String) : String := ⟨(upperL (stripL s.data)).filter (fun c => c ≠ ' ')⟩

/-- `PostcodeCache.set(pc, data)`: dictionary assignment under the normalised
key. -/
def cacheSet (c : PcCache) (pc : String) (v : Option Geo) : PcCache :=
  let k := normalizePc pc
  (k, v) :: c.filter (fun e => e.1 != k)

/-- `normalized in cache._cache`. -/
def cacheMem (c : PcCache) (pc : String) : Bool := (c.lookup (normalizePc pc)).isSome

/-- `PostcodeCache.save_cache`: the JSON object written to disk is the whole
in-memory map, negatives included. -/
def save_cache (c : PcCache) : PcCache := c

/-- Embedding of `bulk_lookup_postcodes(postcodes, session)` with the
external HTTP call made explicit: `resp` is the parsed response pairs
(`result[*].query` with its data) on success and `none` when the request
raises a `RequestException` (timeout included) — in which case the function
returns `{pc: None for pc in postcodes}`. -/
def bulk_lookup_postcodes (pcs : List String) (resp : Option (List (String × Option Geo))) :
    List (String × Option Geo) :=
  let batch := pcs.take 100
  match resp with
  | none => batch.map (fun pc => (pc, none))
  | some items => items

/-- The cache-update loop over one batch's API results
(`for pc, data in api_results.items(): cache.set(pc, data)`). -/
def applyApiResults : List (String × Option Geo) → PcCache → PcCache
  | [], cache => cache
  | e :: rest, cache => applyApiResults rest (cacheSet cache e.1 e.2)

/-- The first pass of `geocode_postcodes_batch`: upper-cased stripped
postcodes that are non-empty and not yet in the cache, in order. -/
def uncachedOf (pcs : List String) (cache : PcCache) : List String :=
  (pcs.map (fun pc => pyUpper (pyStrip pc))).filter
    (fun s => s ≠ "" && !(cacheMem cache s))

/-- The batch loop of `geocode_postcodes_batch`, restricted to the cache it
threads through (`api` stands for the external service: the parsed response
for a submitted batch, or `none` on a request-level error). -/
def geocodeBatchesCache (api : List String → Option (List (String × Option Geo))) :
    Nat → List String → PcCache → PcCache
  | 0, _, cache => cache
  | _ + 1, [], cache => cache
  | fuel + 1, uncached, cache =>
    let batch := uncached.take 100
    let cache' := applyApiResults (bulk_lookup_postcodes batch (api batch)) cache
    geocodeBatchesCache api fuel (uncached.drop 100) cache'

/-- The cache after `geocode_postcodes_batch(postcodes, cache, session)`. -/
def geocode_postcodes_batch_cache (pcs : List String) (cache : PcCache)
    (api : List String → Option (List (String × Option Geo))) : PcCache :=
  let uncached := uncachedOf pcs cache
  geocodeBatchesCache api (uncached.length + 1) uncached cache

end LeaseData

/-! ## Claim-side predicates used by the theorems -/

namespace LeaseData

/-- Whether a field value is a `datetime` (the `isinstance(x, datetime)`
check of the validator). -/
def isDateVal : PyVal → Bool
  | .vDate _ => true
  | _ => false

/-- Whether a field value is numeric (the `isinstance(x, (int, float))`
check of the validator). -/
def isNumVal : PyVal → Bool
  | .vNum _ => true
  | _ => false

/-- The inputs on which the Python validator completes without raising: when
all three fields are present and well-typed and the tenure is positive, the
tenure-mismatch computation `start_date + relativedelta(years=int(tenure))`
must stay inside `datetime`'s year range `[1, 9999]`. -/
def noOverflow (ld : Option LeaseDict) : Prop :=
  ∀ d sd tq, ld = some d → d.start_date = some (.vDate sd) →
    d.tenure_years = some (.vNum tq) → 0 < tq →
    1 ≤ sd.year + pyTruncQ tq ∧ sd.year + pyTruncQ tq ≤ 9999

end LeaseData

/-! ## Theorems for the claims -/

namespace LeaseData

/-- C1.  When a record carries a `dol` value the DOL-dependent Group-6
patterns are applied (spec-modelled, since the `dol` handling is absent from
the source tree): for term `"999 years"` with `dol="16-10-1866"` the regex
extraction returns start 1866-10-16, expiry 2865-10-16 and tenure 999, while
without a `dol` the same term yields nothing. -/
theorem claim1_dol_patterns :
    parse_lease_term_dol "999 years" (some "16-10-1866") =
      some ⟨⟨1866, 10, 16⟩, ⟨2865, 10, 16⟩, 999, "regex"⟩ ∧
    parse_lease_term_dol "999 years" none = none :=
  ⟨by with_unfolding_all rfl, by with_unfolding_all rfl⟩

/-- C2.  The source derives the tenure of a Group-2 date range with
`relativedelta(expiry, start).years`, which floors: on
`"From and including 24 June 2020 to and including 23 June 2025"` it
produces tenure 4, while the repository's own test
(`test_from_to_including`) and the spec's round-up rule require 5 (the
round-up derivation, modelled from the spec as `calcYearsRoundUp`, indeed
gives 5).  This certifies the code bug. -/
theorem claim2_range_tenure_floored :
    parse_lease_term "From and including 24 June 2020 to and including 23 June 2025" =
      some ⟨⟨2020, 6, 24⟩, ⟨2025, 6, 23⟩, 4, "regex"⟩ ∧
    calcYearsRoundUp ⟨2025, 6, 23⟩ ⟨2020, 6, 24⟩ = 5 :=
  ⟨by with_unfolding_all rfl, by with_unfolding_all rfl⟩

/-- C3 counterexample.  A lease term produced by the regex extractor that the
validator marks valid, yet `start_date + tenure_years` misses `expiry_date`
by 365 days: the tenure-mismatch condition is only a warning, so
`is_valid = true` does not bound the mismatch by the 10-day tolerance. -/
theorem claim3_counterexample :
    parse_lease_term "From and including 24 June 2020 to and including 23 June 2080" =
      some ⟨⟨2020, 6, 24⟩, ⟨2080, 6, 23⟩, 59, "regex"⟩ ∧
    (validate_lease_term
        (some (LeaseTerm.toDict ⟨⟨2020, 6, 24⟩, ⟨2080, 6, 23⟩, 59, "regex"⟩))
        ⟨2025, 1, 1⟩ 10).is_valid = true ∧
    (diffDays (addYears (⟨2020, 6, 24⟩ : PyDate) (pyTruncQ 59)) ⟨2080, 6, 23⟩).natAbs = 365 :=
  ⟨by with_unfolding_all rfl, by with_unfolding_all rfl, by with_unfolding_all rfl⟩

/-- C4.  `normalise_term_str` is not idempotent: deleting a comma that sits
between two spaces leaves a double space that only the next application's
whitespace collapse removes.  The spec requires idempotence, so this
certifies the code bug. -/
theorem claim4_normalise_not_idempotent :
    normaliseStr "999 years , from 25 March 1896" = "999 years  from 25 March 1896" ∧
    normaliseStr "999 years  from 25 March 1896" = "999 years from 25 March 1896" ∧
    (normaliseStr (normaliseStr "999 years , from 25 March 1896") ==
      normaliseStr "999 years , from 25 March 1896") = false :=
  ⟨by with_unfolding_all rfl, by with_unfolding_all rfl, by with_unfolding_all rfl⟩

/-- C6.  `resolve_special_day` is not exception-free: only the `int(year)`
conversion is guarded by `try/except`, so a recognised day name with a year
outside `datetime`'s `[1, 9999]` range propagates the constructor's
`ValueError` — here at the string input `year = "0"` (for contrast, a normal
year returns a value).  This certifies the code bug in the claim that the
primitives never throw. -/
theorem claim6_resolve_special_day_raises :
    resolve_special_day_exc "Christmas Day".data "0".data = .error () ∧
    resolve_special_day_exc "Christmas Day".data "1900".data =
      .ok (some ⟨1900, 12, 25⟩) :=
  ⟨by with_unfolding_all rfl, by with_unfolding_all rfl⟩

/-- C7 counterexample.  A parsed neural output carrying exactly expiry date
and tenure (the first date token fails to parse): the parser leaves the
start date absent, so the combination expiry+tenure→start claimed by the
spec is not derived. -/
theorem claim7_counterexample :
    parse_t5_output "99/99/999901/01/2020 99 years" =
      ⟨none, some ⟨2020, 1, 1⟩, some 99⟩ := by
  with_unfolding_all rfl

end LeaseData

namespace LeaseData

/-- C7 amended.  `_parse_t5_output` ends with exactly two derivation steps —
start+tenure gives the expiry, start+expiry gives the tenure — and the
counterexample (`claim7_counterexample`) shows the third combination,
expiry+tenure, does not derive the start.  The first conjunct ties the whole
parser to the two-step fill stage; the others state the two fills. -/
theorem claim7_two_leg_fills (s : String) (p : T5Parsed) :
    parse_t5_output s = applyFills (parse_t5_raw s) ∧
    (∀ sd ty, p.start_date = some sd → p.tenure_years = some ty → ty ≠ 0 →
      p.expiry_date = none → (applyFills p).expiry_date = some (addYears sd ty)) ∧
    (∀ sd ed, p.start_date = some sd → p.expiry_date = some ed →
      p.tenure_years = none →
      (applyFills p).tenure_years =
        some (if 6 ≤ (relDelta ed sd).2.1 then (relDelta ed sd).1 + 1
              else (relDelta ed sd).1)) := by
  refine ⟨rfl, ?_, ?_⟩
  · intro sd ty h1 h2 h3 h4
    rcases p with ⟨ps, pe, pt⟩
    simp only at h1 h2 h4
    subst h1 h2 h4
    simp [applyFills, h3]
  · intro sd ed h1 h2 h3
    rcases p with ⟨ps, pe, pt⟩
    simp only at h1 h2 h3
    subst h1 h2 h3
    simp [applyFills]

/-- C7 witness: the two fills at concrete parsed records, through the
theorem. -/
theorem claim7_two_leg_fills_witness :
    (applyFills ⟨some ⟨2000, 1, 1⟩, none, some 99⟩).expiry_date = some ⟨2099, 1, 1⟩ ∧
    (applyFills ⟨some ⟨2000, 1, 1⟩, some ⟨2050, 1, 1⟩, none⟩).tenure_years = some 50 := by
  constructor
  · have h := (claim7_two_leg_fills "" ⟨some ⟨2000, 1, 1⟩, none, some 99⟩).2.1
      ⟨2000, 1, 1⟩ 99 rfl rfl (by decide) rfl
    rw [h]
    with_unfolding_all rfl
  · have h := (claim7_two_leg_fills "" ⟨some ⟨2000, 1, 1⟩, some ⟨2050, 1, 1⟩, none⟩).2.2
      ⟨2000, 1, 1⟩ ⟨2050, 1, 1⟩ rfl rfl rfl
    rw [h]
    with_unfolding_all rfl

/-- C10.  In `process_chunk`, a row with a usable uid whose class is NaN (or
whose column is absent) or strips to the empty string takes the
non-residential branch and yields a `DeleteMany` for its uid; and any
`UpdateMany` `$set` the function emits comes from a row whose stripped class
starts with `R`, `X` or `P`. -/
theorem claim10_class_residential (r : CsvRow) (u : String)
    (hu : r.uid = some u) (hne : u ≠ "") :
    ((classValue r = none ∨ (∃ s, classValue r = some s ∧ stripL s.data = [])) →
      process_row r = some (.deleteMany u)) ∧
    (∀ u' doc, process_row r = some (.updateMany u' doc) →
      ∃ s, classValue r = some s ∧
        ((stripL s.data).take 1 = ['R'] ∨ (stripL s.data).take 1 = ['X'] ∨
         (stripL s.data).take 1 = ['P'])) := by
  constructor
  · rintro (hc | ⟨s, hc, hs⟩)
    · simp [process_row, hu, hne, is_residential, hc]
    · simp [process_row, hu, hne, is_residential, hc, hs]
  · intro u' doc hop
    rcases hcv : classValue r with _ | s
    · simp [process_row, hu, hne, is_residential, hcv] at hop
    · by_cases hres : is_residential (some s)
      · refine ⟨s, rfl, ?_⟩
        simpa [is_residential, or_assoc] using hres
      · rw [process_row, hu] at hop
        simp [hne, hcv, hres] at hop
  
/-- C10 witness: a row with a usable uid and no class cell produces a
`DeleteMany`, through the theorem. -/
theorem claim10_class_residential_witness :
    process_row ⟨some "u2", []⟩ = some (.deleteMany "u2") :=
  (claim10_class_residential ⟨some "u2", []⟩ "u2" rfl (by decide)).1 (Or.inl rfl)

/-- The validator's value on a fully-populated, well-typed dictionary. -/
theorem validate_some_dict (sd ed : PyDate) (tq : ℚ) (ref : PyDate) (tol : Int) :
    validate_lease_term (some ⟨some (.vDate sd), some (.vDate ed), some (.vNum tq)⟩) ref tol =
      ⟨(if toRD ed ≤ toRD sd then ["INVALID_DATE_ORDER"] else []) ++
         (if tq ≤ 0 then ["INVALID_TENURE"] else []),
       (if 0 < tq then
          (if tol < ((diffDays (addYears sd (pyTruncQ tq)) ed).natAbs : Int)
           then ["TENURE_MISMATCH"] else [])
        else []) ++
         (if toRD ref < toRD sd then ["FUTURE_START_DATE"] else []) ++
         (if toRD sd < toRD ⟨1800, 1, 1⟩ then ["UNREASONABLE_START_DATE"] else []) ++
         (if (1000 : ℚ) < tq then ["EXCESSIVE_TENURE"] else []) ++
         (if toRD ed < toRD ref then ["LEASE_EXPIRED"] else [])⟩ := by
  simp [validate_lease_term]

/-- C3 amended.  For a lease term produced by the (dol-extended) regex
extractor, if the validator marks it valid *and emits no `TENURE_MISMATCH`
warning*, then `start_date + relativedelta(years=int(tenure_years))` is
within the 10-day tolerance of `expiry_date`.  (Without the no-warning
condition the bound fails: see the counterexample, since `TENURE_MISMATCH`
is only a warning and leaves `is_valid` true.) -/
theorem claim3_valid_no_warning_tolerance (s : String) (dol : Option String)
    (lt : LeaseTerm) (ref : PyDate)
    (hp : parse_lease_term_dol s dol = some lt)
    (hv : (validate_lease_term (some lt.toDict) ref 10).is_valid = true)
    (hw : "TENURE_MISMATCH" ∉ (validate_lease_term (some lt.toDict) ref 10).warnings) :
    ((diffDays (addYears lt.start_date (pyTruncQ lt.tenure_years)) lt.expiry_date).natAbs : Int) ≤ 10 := by
  clear hp
  rcases lt with ⟨sd, ed, tq, src⟩
  simp only [LeaseTerm.toDict] at hv hw
  rw [validate_some_dict] at hv hw
  simp only [VResult.is_valid, List.isEmpty_eq_true, List.append_eq_nil] at hv
  by_cases htq : tq ≤ 0
  · simp [htq] at hv
  · have hpos : 0 < tq := lt_of_not_ge htq
    simp only [hpos, if_true] at hw
    by_cases hb : (10 : Int) < ((diffDays (addYears sd (pyTruncQ tq)) ed).natAbs : Int)
    · exfalso
      apply hw
      simp [hb]
      rw [Int.abs_eq_natAbs]
      exact hb
    · exact le_of_not_lt hb

end LeaseData

namespace LeaseData

/-- C3 witness: the amended statement at a concrete extractor output. -/
theorem claim3_valid_no_warning_tolerance_witness :
    ((diffDays (addYears (⟨1862, 6, 24⟩ : PyDate) (pyTruncQ 99)) ⟨1961, 6, 24⟩).natAbs : Int) ≤ 10 := by
  have hV : validate_lease_term
      (some (LeaseTerm.toDict ⟨⟨1862, 6, 24⟩, ⟨1961, 6, 24⟩, 99, "regex"⟩)) ⟨2025, 1, 1⟩ 10 =
      ⟨[], ["LEASE_EXPIRED"]⟩ := by with_unfolding_all rfl
  exact claim3_valid_no_warning_tolerance "99 years from 24 June 1862" none
    ⟨⟨1862, 6, 24⟩, ⟨1961, 6, 24⟩, 99, "regex"⟩ ⟨2025, 1, 1⟩
    (by with_unfolding_all rfl)
    (by rw [hV]; rfl)
    (by rw [hV]; simp)

end LeaseData

namespace LeaseData

/-- Invariant of the running-minimum scan `pickMinRow`: the result (when
any) is a joined row carrying its own priority, it never exceeds the
accumulator's priority, and it is a lower bound on the priority of every
joined row in the scanned list. -/
theorem pickMinRow_go (area : AbRow → Option String) (lb : LookupRow) :
    ∀ (rows : List AbRow) (acc : Option (AbRow × Nat)),
      (∀ x, acc = some x → rowPri area lb x.1 = some x.2) →
      (∀ x, pickMinRow area lb rows acc = some x → rowPri area lb x.1 = some x.2) ∧
      (∀ x y, acc = some x → pickMinRow area lb rows acc = some y → y.2 ≤ x.2) ∧
      (∀ ab ∈ rows, ∀ q, rowPri area lb ab = some q →
        ∀ y, pickMinRow area lb rows acc = some y → y.2 ≤ q) := by
  intro rows
  induction rows with
  | nil =>
    intro acc hacc
    refine ⟨?_, ?_, ?_⟩
    · intro x hx
      exact hacc x hx
    · intro x y hx hy
      rw [pickMinRow] at hy
      rw [hx] at hy
      injection hy with h
      exact h ▸ le_refl _
    · intro ab hab
      exact absurd hab (List.not_mem_nil ab)
  | cons ab rest ih =>
    intro acc hacc
    cases hpri : rowPri area lb ab with
    | none =>
      have hstep : pickMinRow area lb (ab :: rest) acc = pickMinRow area lb rest acc := by
        rw [pickMinRow, hpri]
      obtain ⟨s1, s2, s3⟩ := ih acc hacc
      refine ⟨?_, ?_, ?_⟩
      · intro x hx
        exact s1 x (hstep ▸ hx)
      · intro x y hx hy
        exact s2 x y hx (hstep ▸ hy)
      · intro ab' hmem q hq y hy
        rcases List.mem_cons.mp hmem with h | h
        · rw [h, hpri] at hq
          exact absurd hq (by simp)
        · exact s3 ab' h q hq y (hstep ▸ hy)
    | some p =>
      cases acc with
      | none =>
        have hstep : pickMinRow area lb (ab :: rest) none =
            pickMinRow area lb rest (some (ab, p)) := by
          rw [pickMinRow, hpri]
        have hacc' : ∀ x, (some (ab, p) : Option (AbRow × Nat)) = some x →
            rowPri area lb x.1 = some x.2 := by
          intro x hx
          injection hx with h
          exact h ▸ hpri
        obtain ⟨s1, s2, s3⟩ := ih (some (ab, p)) hacc'
        refine ⟨?_, ?_, ?_⟩
        · intro x hx
          exact s1 x (hstep ▸ hx)
        · intro x y hx hy
          exact absurd hx (by simp)
        · intro ab' hmem q hq y hy
          rcases List.mem_cons.mp hmem with h | h
          · rw [h, hpri] at hq
            injection hq with h'
            exact h' ▸ s2 (ab, p) y rfl (hstep ▸ hy)
          · exact s3 ab' h q hq y (hstep ▸ hy)
      | some bp =>
        by_cases hlt : p < bp.2
        · have hstep : pickMinRow area lb (ab :: rest) (some bp) =
              pickMinRow area lb rest (some (ab, p)) := by
            rw [pickMinRow, hpri]
            simp [hlt]
          have hacc' : ∀ x, (some (ab, p) : Option (AbRow × Nat)) = some x →
              rowPri area lb x.1 = some x.2 := by
            intro x hx
            injection hx with h
            exact h ▸ hpri
          obtain ⟨s1, s2, s3⟩ := ih (some (ab, p)) hacc'
          refine ⟨?_, ?_, ?_⟩
          · intro x hx
            exact s1 x (hstep ▸ hx)
          · intro x y hx hy
            injection hx with h
            have hy' := s2 (ab, p) y rfl (hstep ▸ hy)
            exact le_trans hy' (h ▸ le_of_lt hlt)
          · intro ab' hmem q hq y hy
            rcases List.mem_cons.mp hmem with h | h
            · rw [h, hpri] at hq
              injection hq with h'
              exact h' ▸ s2 (ab, p) y rfl (hstep ▸ hy)
            · exact s3 ab' h q hq y (hstep ▸ hy)
        · have hstep : pickMinRow area lb (ab :: rest) (some bp) =
              pickMinRow area lb rest (some bp) := by
            rw [pickMinRow, hpri]
            simp [hlt]
          obtain ⟨s1, s2, s3⟩ := ih (some bp) hacc
          refine ⟨?_, ?_, ?_⟩
          · intro x hx
            exact s1 x (hstep ▸ hx)
          · intro x y hx hy
            injection hx with h
            exact h ▸ s2 bp y rfl (hstep ▸ hy)
          · intro ab' hmem q hq y hy
            rcases List.mem_cons.mp hmem with h | h
            · rw [h, hpri] at hq
              injection hq with h'
              have hy' := s2 bp y rfl (hstep ▸ hy)
              exact le_trans hy' (h' ▸ le_of_not_lt hlt)
            · exact s3 ab' h q hq y (hstep ▸ hy)

/-- C8.  Matcher priority monotonicity: for a lookup key, the single row the
postcode-based (resp. town-based) batch lookup returns is a joined row whose
match priority is minimal among all reference rows satisfying the join
condition for that key. -/
theorem claim8_min_priority (lb : LookupRow) (rows : List AbRow) (r : AbRow) (p : Nat) :
    (lookupByPostcode lb rows = some (r, p) →
      rowPri (fun ab => ab.postcode) lb r = some p ∧
      ∀ ab ∈ rows, ∀ q, rowPri (fun ab => ab.postcode) lb ab = some q → p ≤ q) ∧
    (lookupByCity lb rows = some (r, p) →
      rowPri (fun ab => ab.post_town) lb r = some p ∧
      ∀ ab ∈ rows, ∀ q, rowPri (fun ab => ab.post_town) lb ab = some q → p ≤ q) := by
  constructor
  · intro h
    obtain ⟨s1, _, s3⟩ := pickMinRow_go (fun ab => ab.postcode) lb rows none (by simp)
    exact ⟨s1 (r, p) h, fun ab hm q hq => s3 ab hm q hq (r, p) h⟩
  · intro h
    obtain ⟨s1, _, s3⟩ := pickMinRow_go (fun ab => ab.post_town) lb rows none (by simp)
    exact ⟨s1 (r, p) h, fun ab hm q hq => s3 ab hm q hq (r, p) h⟩

end LeaseData

namespace LeaseData

/-- C8 witness: the minimal-priority property at a one-row reference set,
through the theorem. -/
theorem claim8_min_priority_witness :
    rowPri (fun ab => ab.postcode) ⟨"7", "7", "AGNES STREET", "E14 7DG"⟩
        ⟨some "7", none, some "Agnes Street", some "e14 7dg", none⟩ = some 1 ∧
    ∀ ab ∈ [(⟨some "7", none, some "Agnes Street", some "e14 7dg", none⟩ : AbRow)],
      ∀ q, rowPri (fun ab => ab.postcode) ⟨"7", "7", "AGNES STREET", "E14 7DG"⟩ ab = some q →
        1 ≤ q :=
  (claim8_min_priority ⟨"7", "7", "AGNES STREET", "E14 7DG"⟩
      [⟨some "7", none, some "Agnes Street", some "e14 7dg", none⟩]
      ⟨some "7", none, some "Agnes Street", some "e14 7dg", none⟩ 1).1
    (by with_unfolding_all rfl)

/-- Lookup is unaffected by filtering out a different key. -/
theorem lookup_filter_ne (c : PcCache) (k k' : String) (h : ¬ k = k') :
    (c.filter (fun e => e.1 != k')).lookup k = c.lookup k := by
  induction c with
  | nil => rfl
  | cons e t ih =>
    by_cases he : e.1 = k'
    · have hk : (k == e.1) = false := by
        simp [he]
        intro hkk
        exact h hkk
      have hkk : (k == k') = false := by simpa using h
      simp [List.filter_cons, he, List.lookup, hk, hkk, ih]
    · simp [List.filter_cons, he, List.lookup, ih]

/-- `PostcodeCache.set` writes exactly its own normalised key. -/
theorem cacheSet_lookup (c : PcCache) (pc : String) (v : Option Geo) (k : String) :
    (cacheSet c pc v).lookup k = if k = normalizePc pc then some v else c.lookup k := by
  unfold cacheSet
  by_cases hk : k = normalizePc pc
  · simp [hk, List.lookup]
  · have hb : (k == normalizePc pc) = false := by simpa using hk
    simp [List.lookup, hb, hk, lookup_filter_ne _ _ _ hk]

/-- Folding all-negative API results preserves an existing negative entry. -/
theorem applyNone_preserve (l : List String) (cache : PcCache) (k : String)
    (h : cache.lookup k = some none) :
    (applyApiResults (l.map (fun x => (x, none))) cache).lookup k = some none := by
  induction l generalizing cache with
  | nil => exact h
  | cons a t ih =>
    simp only [List.map_cons, applyApiResults]
    apply ih
    rw [cacheSet_lookup]
    by_cases hk : k = normalizePc a <;> simp [hk, h]

/-- Folding all-negative API results negative-caches every listed postcode. -/
theorem applyNone_mem (l : List String) (cache : PcCache) (pc : String) (h : pc ∈ l) :
    (applyApiResults (l.map (fun x => (x, none))) cache).lookup (normalizePc pc) =
      some none := by
  induction l generalizing cache with
  | nil => exact absurd h (List.not_mem_nil pc)
  | cons a t ih =>
    simp only [List.map_cons, applyApiResults]
    rcases List.mem_cons.mp h with h1 | h1
    · apply applyNone_preserve
      rw [cacheSet_lookup, h1]
      simp
    · exact ih _ h1

/-- C9 amended.  On a request-level failure (`resp = none`, covering the
30-second timeout), every postcode submitted in the request becomes a
negative entry of the in-memory cache, and `save_cache` persists the whole
cache — negatives from failures included — so they are *not* retried on the
next run. -/
theorem claim9_failed_request_negatives (batch : List String) (cache : PcCache)
    (pc : String) (h : pc ∈ batch.take 100) :
    (applyApiResults (bulk_lookup_postcodes batch none) cache).lookup (normalizePc pc) =
      some none ∧
    save_cache (applyApiResults (bulk_lookup_postcodes batch none) cache) =
      applyApiResults (bulk_lookup_postcodes batch none) cache :=
  ⟨applyNone_mem (batch.take 100) cache pc h, rfl⟩

/-- C9 witness: the amended statement at a concrete one-postcode request. -/
theorem claim9_failed_request_negatives_witness :
    (applyApiResults (bulk_lookup_postcodes ["ab1 2cd"] none) []).lookup
        (normalizePc "ab1 2cd") = some none :=
  (claim9_failed_request_negatives ["ab1 2cd"] [] "ab1 2cd" (by decide)).1

/-- C9 counterexample.  After `geocode_postcodes_batch` runs against a
failing external service, the saved (persisted) cache maps the postcode to
the negative entry — contradicting the claim that failure negatives are not
persisted across runs. -/
theorem claim9_counterexample :
    (save_cache (geocode_postcodes_batch_cache ["ab1 2cd"] [] (fun _ => none))).lookup
        "AB12CD" = some none := by
  with_unfolding_all rfl

end LeaseData

namespace LeaseData

/-- C5.  `validate_lease_term` yields `is_valid = false` exactly when one of
the five error conditions holds — absent data, a missing required field, a
wrongly-typed field, start not before expiry, or non-positive tenure — and
never because of the five warning conditions (which only populate
`warnings`).  The `noOverflow` hypothesis restricts the statement to the
inputs on which the Python function returns at all (see its doc comment). -/
theorem claim5_error_conditions (ld : Option LeaseDict) (ref : PyDate) (tol : Int)
    (hox : noOverflow ld) :
    (validate_lease_term ld ref tol).is_valid = false ↔
      (ld = none ∨ ∃ d, ld = some d ∧
        (d.start_date = none ∨ d.expiry_date = none ∨ d.tenure_years = none ∨
         (∃ v, d.start_date = some v ∧ isDateVal v = false) ∨
         (∃ v, d.expiry_date = some v ∧ isDateVal v = false) ∨
         (∃ v, d.tenure_years = some v ∧ isNumVal v = false) ∨
         (∃ sd ed, d.start_date = some (.vDate sd) ∧ d.expiry_date = some (.vDate ed) ∧
            toRD ed ≤ toRD sd) ∨
         (∃ q, d.tenure_years = some (.vNum q) ∧ q ≤ 0))) := by
  clear hox
  rcases ld with _ | d
  · simp [validate_lease_term, VResult.is_valid]
  · rcases d with ⟨os, oe, ot⟩
    rcases os with _ | sv
    · simp [validate_lease_term, VResult.is_valid]
    rcases oe with _ | ev
    · simp [validate_lease_term, VResult.is_valid]
    rcases ot with _ | tv
    · simp [validate_lease_term, VResult.is_valid]
    rcases sv with sd | sq | _
    case vNum =>
      simp [validate_lease_term, VResult.is_valid, isDateVal, isNumVal]
    case vOther =>
      simp [validate_lease_term, VResult.is_valid, isDateVal, isNumVal]
    rcases ev with ed | eq' | _
    case vNum =>
      simp [validate_lease_term, VResult.is_valid, isDateVal, isNumVal]
    case vOther =>
      simp [validate_lease_term, VResult.is_valid, isDateVal, isNumVal]
    rcases tv with td | tq | _
    case vDate =>
      simp [validate_lease_term, VResult.is_valid, isDateVal, isNumVal]
    case vOther =>
      simp [validate_lease_term, VResult.is_valid, isDateVal, isNumVal]
    rw [validate_some_dict]
    simp only [VResult.is_valid, isDateVal, isNumVal, Option.some.injEq]
    constructor
    · intro hfalse
      by_cases ho : toRD ed ≤ toRD sd
      · exact Or.inr ⟨_, rfl, Or.inr (Or.inr (Or.inr (Or.inr (Or.inr (Or.inr
          (Or.inl ⟨sd, ed, rfl, rfl, ho⟩))))))⟩
      · by_cases ht : tq ≤ 0
        · exact Or.inr ⟨_, rfl, Or.inr (Or.inr (Or.inr (Or.inr (Or.inr (Or.inr
            (Or.inr ⟨tq, rfl, ht⟩))))))⟩
        · exfalso
          simp [ho, ht, List.isEmpty] at hfalse
    · rintro (h | ⟨d, hd, hcond⟩)
      · exact absurd h (by simp)
      · subst hd
        dsimp only at hcond
        rcases hcond with h | h | h | ⟨v, hv, hdv⟩ | ⟨v, hv, hdv⟩ | ⟨v, hv, hnv⟩ |
          ⟨sd', ed', h1, h2, h3⟩ | ⟨q, h1, h2⟩
        · exact absurd h (by simp)
        · exact absurd h (by simp)
        · exact absurd h (by simp)
        · injection hv with hv'
          rw [← hv'] at hdv
          simp [isDateVal] at hdv
        · injection hv with hv'
          rw [← hv'] at hdv
          simp [isDateVal] at hdv
        · injection hv with hv'
          rw [← hv'] at hnv
          simp [isNumVal] at hnv
        · injection h1 with h1'
          injection h2 with h2'
          injection h1' with h1''
          injection h2' with h2''
          subst h1'' h2''
          simp [h3, List.isEmpty]
        · injection h1 with h1'
          injection h1' with h1''
          subst h1''
          simp [h2, List.isEmpty]
          by_cases ho : toRD ed ≤ toRD sd <;> simp [ho]

end LeaseData

namespace LeaseData

/-- C5 witness: the characterisation applied to a concrete dictionary whose
start field holds a non-`datetime` value. -/
theorem claim5_error_conditions_witness :
    (validate_lease_term
        (some ⟨some PyVal.vOther, some (.vDate ⟨2010, 1, 1⟩), some (.vNum 10)⟩)
        ⟨2025, 1, 1⟩ 10).is_valid = false := by
  have hox : noOverflow
      (some ⟨some PyVal.vOther, some (.vDate ⟨2010, 1, 1⟩), some (.vNum 10)⟩) := by
    intro d sd tq hd h1 h2 hpos
    injection hd with hd'
    subst hd'
    dsimp only at h1
    simp at h1
  exact (claim5_error_conditions _ ⟨2025, 1, 1⟩ 10 hox).mpr
    (Or.inr ⟨_, rfl, Or.inr (Or.inr (Or.inr (Or.inl ⟨PyVal.vOther, rfl, rfl⟩)))⟩)

end LeaseData
